import Mathlib

/-! # factories_injector: the type traits and the factory registry

A shallow embedding of `src/src/factory_traits.hpp` and
`src/src/factory_injector.hpp`.

* C++ types are class names with optional cv-qualifiers and an optional
  reference (`QualType`); the `<type_traits>` transformations used by the
  headers are functions on them.
* Template type arguments become ordinary arguments, variadic argument packs
  become `List Int`.
* `FactoryInjector` is its one member, the instance container, and every
  member function takes the injector explicitly; a mutating member function
  returns the injector it leaves behind together with its outcome.
* User code (constructors of factories, their `Create`) and the two facts the
  headers leave to the compiler (what `type_info::name()` returns, which
  operand of an assignment is evaluated first) are collected in `Env`; where
  base subobjects lie inside an object is left to `Layout`.
-/

namespace factory_injector

/-! ## Types -/

/-- Reference category of a type: not a reference, `T&`, or `T&&`. -/
inductive RefKind where
  | none
  | lvalue
  | rvalue
deriving DecidableEq, Repr

/-- A possibly cv-qualified, possibly reference type over a class `base`:
`base`, `const base`, `volatile base&`, `const base&&`, ...  For a reference
type the qualifiers are those of the referenced type (a reference has no
top-level qualifier of its own). -/
structure QualType (α : Type) where
  base : α
  isConst : Bool
  isVolatile : Bool
  ref : RefKind
deriving DecidableEq, Repr

/-- The type `C` itself, with no qualifier and no reference. -/
def QualType.plain {α : Type} (c : α) : QualType α := ⟨c, false, false, RefKind.none⟩

/-- The type `const C&`. -/
def QualType.constRef {α : Type} (c : α) : QualType α := ⟨c, true, false, RefKind.lvalue⟩

/-- The type `C&`. -/
def QualType.mutRef {α : Type} (c : α) : QualType α := ⟨c, false, false, RefKind.lvalue⟩

end factory_injector

/-! ## The `<type_traits>` transformations the headers use

These follow the C++ standard, [meta.trans.cv] and [meta.trans.ref]. -/

namespace std

open factory_injector

/-- The trait `std::add_lvalue_reference<T>::type`: `T&`; by reference collapsing
`T&` and `T&&` both give `T&`. -/
def add_lvalue_reference {α : Type} (T : QualType α) : QualType α :=
  { T with ref := RefKind.lvalue }

/-- The trait `std::add_const<T>::type`: `T const`, except that a reference type
(which cannot be cv-qualified) is left as it is. -/
def add_const {α : Type} (T : QualType α) : QualType α :=
  match T.ref with
  | RefKind.none => { T with isConst := true }
  | _ => T

/-- The trait `std::remove_reference<T>::type`: the referenced type, or `T` itself. -/
def remove_reference {α : Type} (T : QualType α) : QualType α :=
  { T with ref := RefKind.none }

/-- The trait `std::remove_cv<T>::type`: `T` without its top-level `const` and
`volatile`; a reference type has none and is left as it is. -/
def remove_cv {α : Type} (T : QualType α) : QualType α :=
  match T.ref with
  | RefKind.none => { T with isConst := false, isVolatile := false }
  | _ => T

end std

namespace factory_injector

/-! ## factory_traits.hpp -/

namespace traits_details

/-- The helper `add_const_ref<T>::type`:
`std::add_const<std::add_lvalue_reference<T>::type>::type`. -/
def add_const_ref {α : Type} (T : QualType α) : QualType α :=
  std.add_const (std.add_lvalue_reference T)

/-- The helper `remove_const_ref<T>::type`:
`std::remove_cv<std::remove_reference<T>::type>::type`. -/
def remove_const_ref {α : Type} (T : QualType α) : QualType α :=
  std.remove_cv (std.remove_reference T)

end traits_details

/-- The member types of an instantiation `FactoryTraits<TInterface, TObject>`
(`tObjectPtr` is `std::unique_ptr<tObject>` and is not listed). -/
structure FactoryTraitsTypes where
  tInterface : QualType String
  tObject : QualType String
deriving DecidableEq, Repr

/-- The struct template `FactoryTraits<TInterface, TObject>`. -/
def FactoryTraits (TInterface TObject : QualType String) : FactoryTraitsTypes :=
  ⟨traits_details.remove_const_ref TInterface, traits_details.remove_const_ref TObject⟩

/-- A class as a user declares it for the registry:
`class name : public FactoryTraits<TInterface, TObject>`, or
`class name : public base`, or
`class name : public base` with a member `using tInterface = C;` of its own,
naming a class `C`. -/
inductive ClassDecl where
  | traits (name : String) (TInterface TObject : QualType String)
  | derived (name : String) (base : ClassDecl)
  | redeclares (name : String) (tInterface : String) (base : ClassDecl)
deriving DecidableEq, Repr

/-- The name of the declared class. -/
def ClassDecl.name : ClassDecl → String
  | ClassDecl.traits name _ _ => name
  | ClassDecl.derived name _ => name
  | ClassDecl.redeclares name _ _ => name

/-- Member lookup of `C::tInterface`: a declaration in the class itself is
found first and hides the inherited one; otherwise the typedef of the
`FactoryTraits` base is inherited through the chain of bases. -/
def ClassDecl.tInterface : ClassDecl → QualType String
  | ClassDecl.traits _ TInterface TObject => (FactoryTraits TInterface TObject).tInterface
  | ClassDecl.derived _ base => base.tInterface
  | ClassDecl.redeclares _ tInterface _ => QualType.plain tInterface

/-- The class `I` is `F` or a direct or indirect base of `F`. -/
def ClassDecl.derivesFrom (I : ClassDecl) : ClassDecl → Prop
  | ClassDecl.traits name TInterface TObject => ClassDecl.traits name TInterface TObject = I
  | ClassDecl.derived name base => ClassDecl.derived name base = I ∨ ClassDecl.derivesFrom I base
  | ClassDecl.redeclares name tInterface base =>
    ClassDecl.redeclares name tInterface base = I ∨ ClassDecl.derivesFrom I base

/-- Whether a class derives from another can be computed along the chain of bases. -/
instance ClassDecl.decidableDerivesFrom (I : ClassDecl) :
    (F : ClassDecl) → Decidable (ClassDecl.derivesFrom I F)
  | ClassDecl.traits name TInterface TObject =>
    inferInstanceAs (Decidable (ClassDecl.traits name TInterface TObject = I))
  | ClassDecl.derived name base =>
    have : Decidable (ClassDecl.derivesFrom I base) := ClassDecl.decidableDerivesFrom I base
    inferInstanceAs (Decidable (ClassDecl.derived name base = I ∨ ClassDecl.derivesFrom I base))
  | ClassDecl.redeclares name tInterface base =>
    have : Decidable (ClassDecl.derivesFrom I base) := ClassDecl.decidableDerivesFrom I base
    inferInstanceAs
      (Decidable (ClassDecl.redeclares name tInterface base = I ∨ ClassDecl.derivesFrom I base))

/-- The class `F` is `I`, or derives from `I` through classes none of which
declares a `tInterface` of its own: `F` has the `tInterface` that `I` has. -/
def ClassDecl.inheritsTypedefFrom (I : ClassDecl) : ClassDecl → Prop
  | ClassDecl.traits name TInterface TObject => ClassDecl.traits name TInterface TObject = I
  | ClassDecl.derived name base =>
    ClassDecl.derived name base = I ∨ ClassDecl.inheritsTypedefFrom I base
  | ClassDecl.redeclares name tInterface base => ClassDecl.redeclares name tInterface base = I

/-- Whether the typedef is inherited can be computed along the chain of bases. -/
instance ClassDecl.decidableInheritsTypedefFrom (I : ClassDecl) :
    (F : ClassDecl) → Decidable (ClassDecl.inheritsTypedefFrom I F)
  | ClassDecl.traits name TInterface TObject =>
    inferInstanceAs (Decidable (ClassDecl.traits name TInterface TObject = I))
  | ClassDecl.derived name base =>
    have : Decidable (ClassDecl.inheritsTypedefFrom I base) :=
      ClassDecl.decidableInheritsTypedefFrom I base
    inferInstanceAs
      (Decidable (ClassDecl.derived name base = I ∨ ClassDecl.inheritsTypedefFrom I base))
  | ClassDecl.redeclares name tInterface base =>
    inferInstanceAs (Decidable (ClassDecl.redeclares name tInterface base = I))

namespace traits_details

/-- The helper `get_factory<TFactory>::type`: `remove_const_ref<TFactory>::type`. -/
def get_factory (TFactory : QualType ClassDecl) : QualType ClassDecl :=
  remove_const_ref TFactory

/-- The helper `get_interface<TFactory>::type`:
`get_factory<TFactory>::type::tInterface`. -/
def get_interface (TFactory : QualType ClassDecl) : QualType String :=
  (get_factory TFactory).base.tInterface

/-- The helper `get_interface_const_ref<TFactory>::type`:
`add_const_ref<get_interface<TFactory>::type>::type`. -/
def get_interface_const_ref (TFactory : QualType ClassDecl) : QualType String :=
  add_const_ref (get_interface TFactory)

end traits_details

/-! ## factory_injector.hpp -/

/-- The object a `std::type_info` describes, identified by the class it stands for. -/
structure type_info where
  type : String
deriving DecidableEq, Repr

/-- The operator `typeid(T)` on a type-id: the `type_info` of the class, whatever
reference or cv-qualifier the type-id carries. -/
def typeid (T : QualType String) : type_info :=
  ⟨T.base⟩

/-- A type over a declared class, written by the name of the class. -/
def QualType.byName (T : QualType ClassDecl) : QualType String :=
  ⟨T.base.name, T.isConst, T.isVolatile, T.ref⟩

/-- The wrapper `std::type_index` around a `type_info`; two are equal when they
describe the same type. -/
structure type_index where
  info : type_info
deriving DecidableEq, Repr

/-- An object of class type: its dynamic (most derived) type and the values of
its data members. -/
structure Object where
  dynType : String
  members : List Int
deriving DecidableEq, Repr

/-- What the headers take from outside: the user code reached through the
templates and two choices the C++ implementation makes.

* `typeName c` is the C string `typeid(c).name()` returns (implementation-defined);
* `construct c args` runs the constructor of class `c` on `args` inside
  `std::make_unique<c>(args...)`: the data members of the new object, or the
  message of the exception that escapes;
* `Create c members args` runs the virtual `Create(args...)` of an object whose
  dynamic type is `c`: the product, or the message of the exception that escapes;
* `rhsFirst` tells whether the right operand of an assignment is evaluated
  before the left one; C++17 prescribes it, before C++17 the order is
  unspecified (`std::make_unique` only requires C++14);
* `CreateEffect c members args` is what that call of `Create(args...)` leaves in
  the data members of the factory it runs on, whether it returns or throws. A
  `Create` declared `const`, as the documentation of `CreateObject` asks for, in
  a class without `mutable` members leaves `members`; `CreateObject` calls
  `Create` through the reference `GetFactory` returns, so a `Create` that is not
  `const` is called as well. -/
structure Env where
  typeName : String → String
  construct : String → List Int → Except String (List Int)
  Create : String → List Int → List Int → Except String Object
  rhsFirst : Bool
  CreateEffect : String → List Int → List Int → List Int

/-- The member function `std::type_info::name()`. -/
def type_info.name (env : Env) (ti : type_info) : String :=
  env.typeName ti.type

/-- The two exception classes of the registry. -/
inductive ExKind where
  | FactoryAlreadyRegisteredEx
  | FactoryNotRegisteredEx
deriving DecidableEq, Repr

/-- The character `'\0'` that ends a C string. -/
def NUL : Char := Char.ofNat 0

/-- The C string a `const char*` into the buffer of a `std::string` denotes: the
characters before the first `NUL`. -/
def c_str (s : String) : String :=
  ⟨s.data.takeWhile (fun ch => decide (ch ≠ NUL))⟩

/-- An exception object of the registry: its class and the message `what()`
returns. The `std::runtime_error` base keeps the `std::string` it is built
from and `what()` returns a `const char*` to it, so the message read from
`what()` ends at the first `NUL` of that string. -/
structure Exception where
  kind : ExKind
  what : String
deriving DecidableEq, Repr

/-- The constructor `FactoryAlreadyRegisteredEx(rcFactoryName)`:
`std::runtime_error("The requested factory " + rcFactoryName + " is already registered")`. -/
def FactoryAlreadyRegisteredEx (rcFactoryName : String) : Exception :=
  ⟨ExKind.FactoryAlreadyRegisteredEx,
    c_str ("The requested factory " ++ rcFactoryName ++ " is already registered")⟩

/-- The constructor `FactoryNotRegisteredEx(rcFactoryName)`:
`std::runtime_error("Unable to find the requested factory " + rcFactoryName)`. -/
def FactoryNotRegisteredEx (rcFactoryName : String) : Exception :=
  ⟨ExKind.FactoryNotRegisteredEx,
    c_str ("Unable to find the requested factory " ++ rcFactoryName)⟩

/-- How a call of a member function ends. -/
inductive Outcome (α : Type) where
  /-- normal return -/
  | returns (a : α)
  /-- a `throw` statement of the registry was executed -/
  | throws (e : Exception)
  /-- an exception of user code (a constructor, `Create`) passed through -/
  | propagates (what : String)
  /-- a member was accessed through a null pointer -/
  | undefined
deriving DecidableEq, Repr

namespace injector_details

/-- The holder `RealInstance<TInstance>`: its `std::unique_ptr<TInstance>` member
(`none` is the null pointer). -/
structure RealInstance where
  TInstance : String
  mInstancePtr : Option Object
deriving DecidableEq, Repr

/-- The constructor `RealInstance<TInstance>(rrArgs...)`:
`mInstancePtr(std::make_unique<TInstance>(rrArgs...))`. -/
def RealInstance.new (env : Env) (TInstance : String) (rrArgs : List Int) :
    Except String RealInstance :=
  match env.construct TInstance rrArgs with
  | Except.ok members => Except.ok ⟨TInstance, some ⟨TInstance, members⟩⟩
  | Except.error what => Except.error what

/-- The member function `RealInstance::GetPtr()`: `mInstancePtr.get()` as a `void*`. -/
def RealInstance.GetPtr (self : RealInstance) : Option Object :=
  self.mInstancePtr

/-- The type `std::unique_ptr<AnyInstance>`; `none` is the null pointer. -/
abbrev tAnyInstancePtr := Option RealInstance

/-- The helper `MakeUniqueAnyInstance<TInstance>(rrArgs...)`:
`std::make_unique<RealInstance<TInstance>>(rrArgs...)`. -/
def MakeUniqueAnyInstance (env : Env) (TInstance : QualType ClassDecl) (rrArgs : List Int) :
    Except String tAnyInstancePtr :=
  match RealInstance.new env TInstance.base.name rrArgs with
  | Except.ok holder => Except.ok (some holder)
  | Except.error what => Except.error what

end injector_details

open injector_details

/-- The container `std::unordered_map<std::type_index, tAnyInstancePtr>`: its
elements, at most one per key. -/
abbrev tInstanceCont := List (type_index × tAnyInstancePtr)

/-- The lookup `m.find(k)`: the mapped value of the element found, `none` for
the end iterator. -/
def tInstanceCont.find : tInstanceCont → type_index → Option tAnyInstancePtr
  | [], _ => none
  | (k, v) :: rest, key => if k = key then some v else tInstanceCont.find rest key

/-- The element access `m[k]`: inserts a value-initialised (null) pointer when
`k` has no element; the reference returned is the element of key `k`. -/
def tInstanceCont.subscript (m : tInstanceCont) (key : type_index) : tInstanceCont :=
  match tInstanceCont.find m key with
  | some _ => m
  | none => m ++ [(key, none)]

/-- Move assignment through the reference that `m[k]` returned. -/
def tInstanceCont.assign : tInstanceCont → type_index → tAnyInstancePtr → tInstanceCont
  | [], _, _ => []
  | (k, v) :: rest, key, p =>
    if k = key then (k, p) :: rest else (k, v) :: tInstanceCont.assign rest key p

/-- The class `FactoryInjector`: its only data member. -/
structure FactoryInjector where
  mInstanceCont : tInstanceCont
deriving DecidableEq, Repr

/-- The defaulted constructor `FactoryInjector()`: an empty container. -/
def FactoryInjector.new : FactoryInjector := ⟨[]⟩

/-- A reference returned to a caller: its declared type and the object it is
bound to. -/
structure Ref where
  type : QualType String
  target : Object
deriving DecidableEq, Repr

/-- The member function `FactoryInjector::GetInterfaceTypeIndex<TFactory>()`:
`std::type_index(typeid(tInterface))` with
`tInterface = get_interface<TFactory>::type`. -/
def FactoryInjector.GetInterfaceTypeIndex (TFactory : QualType ClassDecl) : type_index :=
  let tInterface := traits_details.get_interface TFactory
  ⟨typeid tInterface⟩

/-- The member function `FactoryInjector::FindFactory<TFactory>()`:
`mInstanceCont.find(type_idx)`; `none` is `std::cend(mInstanceCont)`. -/
def FactoryInjector.FindFactory (self : FactoryInjector) (TFactory : QualType ClassDecl) :
    Option tAnyInstancePtr :=
  let type_idx := FactoryInjector.GetInterfaceTypeIndex TFactory
  tInstanceCont.find self.mInstanceCont type_idx

/-- The member function `FactoryInjector::OverwriteFactory<TFactory>(rrArgs...)`:
`mInstanceCont[type_idx] = MakeUniqueAnyInstance<tFactory>(rrArgs...)`.
With the right operand first, an exception of the constructor leaves before
`mInstanceCont[type_idx]` is evaluated; with the left operand first,
`mInstanceCont[type_idx]` has already run when the constructor throws. -/
def FactoryInjector.OverwriteFactory (env : Env) (self : FactoryInjector)
    (TFactory : QualType ClassDecl) (rrArgs : List Int) : FactoryInjector × Outcome Unit :=
  let type_idx := FactoryInjector.GetInterfaceTypeIndex TFactory
  let tFactory := traits_details.get_factory TFactory
  if env.rhsFirst then
    match MakeUniqueAnyInstance env tFactory rrArgs with
    | Except.error what => (self, Outcome.propagates what)
    | Except.ok p =>
      (⟨tInstanceCont.assign (tInstanceCont.subscript self.mInstanceCont type_idx) type_idx p⟩,
        Outcome.returns ())
  else
    let cont := tInstanceCont.subscript self.mInstanceCont type_idx
    match MakeUniqueAnyInstance env tFactory rrArgs with
    | Except.error what => (⟨cont⟩, Outcome.propagates what)
    | Except.ok p => (⟨tInstanceCont.assign cont type_idx p⟩, Outcome.returns ())

/-- The member function `FactoryInjector::RegisterFactory<TFactory>(rrArgs...)`. -/
def FactoryInjector.RegisterFactory (env : Env) (self : FactoryInjector)
    (TFactory : QualType ClassDecl) (rrArgs : List Int) : FactoryInjector × Outcome Unit :=
  match FactoryInjector.FindFactory self TFactory with
  | none => FactoryInjector.OverwriteFactory env self TFactory rrArgs
  | some _ =>
    (self, Outcome.throws (FactoryAlreadyRegisteredEx (type_info.name env (typeid TFactory.byName))))

/-- The member function `FactoryInjector::GetFactory<TFactory>()`; the declared
return type is `get_interface_const_ref<TFactory>::type`.  On the found branch
`instance_itr->second->GetPtr()` goes through the stored holder pointer and the
result is dereferenced. -/
def FactoryInjector.GetFactory (env : Env) (self : FactoryInjector)
    (TFactory : QualType ClassDecl) : Outcome Ref :=
  match FactoryInjector.FindFactory self TFactory with
  | some second =>
    match second with
    | none => Outcome.undefined
    | some holder =>
      match holder.GetPtr with
      | none => Outcome.undefined
      | some obj => Outcome.returns ⟨traits_details.get_interface_const_ref TFactory, obj⟩
  | none =>
    Outcome.throws (FactoryNotRegisteredEx (type_info.name env (typeid TFactory.byName)))

/-- The call `factory.Create(rrArgs...)` through a reference: virtual dispatch on
the dynamic type of the object referred to. -/
def Ref.Create (env : Env) (factory : Ref) (rrArgs : List Int) : Outcome Object :=
  match env.Create factory.target.dynType factory.target.members rrArgs with
  | Except.ok product => Outcome.returns product
  | Except.error what => Outcome.propagates what

/-- The member function `FactoryInjector::CreateObject<TFactory>(rrArgs...)`:
`auto& factory = GetFactory<TFactory>(); return factory.Create(rrArgs...);`. -/
def FactoryInjector.CreateObject (env : Env) (self : FactoryInjector)
    (TFactory : QualType ClassDecl) (rrArgs : List Int) : Outcome Object :=
  match FactoryInjector.GetFactory env self TFactory with
  | Outcome.returns factory => Ref.Create env factory rrArgs
  | Outcome.throws e => Outcome.throws e
  | Outcome.propagates what => Outcome.propagates what
  | Outcome.undefined => Outcome.undefined

/-! ## Sequences of calls -/

/-- One call of a public member function of the registry. -/
inductive Call where
  | OverwriteFactory (TFactory : QualType ClassDecl) (rrArgs : List Int)
  | RegisterFactory (TFactory : QualType ClassDecl) (rrArgs : List Int)
  | GetFactory (TFactory : QualType ClassDecl)
  | CreateObject (TFactory : QualType ClassDecl) (rrArgs : List Int)
deriving DecidableEq, Repr

/-- The type argument of a call. -/
def Call.TFactory : Call → QualType ClassDecl
  | Call.OverwriteFactory TFactory _ => TFactory
  | Call.RegisterFactory TFactory _ => TFactory
  | Call.GetFactory TFactory => TFactory
  | Call.CreateObject TFactory _ => TFactory

/-- The registry a call leaves behind, whatever its outcome (an exception is
caught by the caller), in a program whose `Create` leaves its factory as it is;
`GetFactory` and `CreateObject` are `const` member functions.
`FactoryInjector.callStep` follows the two bodies statement by statement. -/
def FactoryInjector.call (env : Env) (self : FactoryInjector) : Call → FactoryInjector
  | Call.OverwriteFactory TFactory rrArgs =>
    (FactoryInjector.OverwriteFactory env self TFactory rrArgs).1
  | Call.RegisterFactory TFactory rrArgs =>
    (FactoryInjector.RegisterFactory env self TFactory rrArgs).1
  | Call.GetFactory _ => self
  | Call.CreateObject _ _ => self

/-- The registry after a sequence of calls, first to last. -/
def FactoryInjector.run (env : Env) (self : FactoryInjector) : List Call → FactoryInjector
  | [] => self
  | c :: rest => FactoryInjector.run env (FactoryInjector.call env self c) rest

/-! ## The classes of the unit tests (`src/tests/ut_factory_injector.cpp`) -/

namespace ut

/-- The test class `class IDummyClassFactory : public FactoryTraits<IDummyClassFactory, IDummyClass>`. -/
def IDummyClassFactory : ClassDecl :=
  ClassDecl.traits "IDummyClassFactory" (QualType.plain "IDummyClassFactory")
    (QualType.plain "IDummyClass")

/-- The test class `class DummyClass1Factory : public IDummyClassFactory`. -/
def DummyClass1Factory : ClassDecl :=
  ClassDecl.derived "DummyClass1Factory" IDummyClassFactory

/-- The test class `class DummyClass2Factory : public IDummyClassFactory`. -/
def DummyClass2Factory : ClassDecl :=
  ClassDecl.derived "DummyClass2Factory" IDummyClassFactory

/-- The test class `class IOtherClassFactory : public FactoryTraits<IOtherClassFactory, IDummyClass>`. -/
def IOtherClassFactory : ClassDecl :=
  ClassDecl.traits "IOtherClassFactory" (QualType.plain "IOtherClassFactory")
    (QualType.plain "IDummyClass")

/-- A factory outside the test file whose constructor always throws:
`class ThrowingFactory : public IDummyClassFactory` with
`ThrowingFactory() { throw std::runtime_error("ctor"); }`. -/
def ThrowingFactory : ClassDecl :=
  ClassDecl.derived "ThrowingFactory" IDummyClassFactory

/-- A factory outside the test file that derives from `IDummyClassFactory` and
declares its own typedef:
`class ShadowFactory : public IDummyClassFactory` with
`using tInterface = IOtherClassFactory;`. -/
def ShadowFactory : ClassDecl :=
  ClassDecl.redeclares "ShadowFactory" "IOtherClassFactory" IDummyClassFactory

/-- The name `typeid(c).name()` of a class at namespace scope under the Itanium
C++ ABI: the length of its identifier followed by the identifier. -/
def typeName (c : String) : String :=
  toString c.length ++ c

/-- Constructors of the test classes: the factories have no data member and a
defaulted constructor; `ThrowingFactory` throws; `IDummyClassFactory` is
abstract and never constructed. -/
def construct (c : String) (_rrArgs : List Int) : Except String (List Int) :=
  if c = "ThrowingFactory" then Except.error "ctor" else Except.ok []

/-- The overriders of `Create`: `std::make_unique<DummyClass1>()` and
`std::make_unique<DummyClass2>()`. -/
def Create (c : String) (_members : List Int) (_rrArgs : List Int) : Except String Object :=
  if c = "DummyClass1Factory" then Except.ok ⟨"DummyClass1", []⟩
  else if c = "DummyClass2Factory" then Except.ok ⟨"DummyClass2", []⟩
  else Except.error "no overrider"

/-- The test program built with the right operand of an assignment first (C++17). -/
def env : Env := ⟨typeName, construct, Create, true, fun _ members _ => members⟩

/-- The test program built with the left operand of an assignment first. -/
def envLhsFirst : Env := ⟨typeName, construct, Create, false, fun _ members _ => members⟩

end ut

end factory_injector

/-! ## The composition `CreateObject` is documented to be -/

namespace factory_injector

/-- Sequencing of two steps: the second runs on what the first returned, and
any other end of the first is the end of both. -/
def Outcome.andThen {α β : Type} (first : Outcome α) (next : α → Outcome β) : Outcome β :=
  match first with
  | Outcome.returns a => next a
  | Outcome.throws e => Outcome.throws e
  | Outcome.propagates what => Outcome.propagates what
  | Outcome.undefined => Outcome.undefined

/-- The expression `GetFactory<TFactory>().Create(rrArgs...)` that the
documentation of `CreateObject` and the example call it equivalent to. -/
def FactoryInjector.GetFactoryThenCreate (env : Env) (self : FactoryInjector)
    (TFactory : QualType ClassDecl) (rrArgs : List Int) : Outcome Object :=
  Outcome.andThen (FactoryInjector.GetFactory env self TFactory)
    (fun factory => Ref.Create env factory rrArgs)

end factory_injector

namespace factory_injector

end factory_injector

/-! ## Who wrote a slot last -/

namespace factory_injector

namespace ut

/-- The test program as the test file has it, every factory with its defaulted
constructor, built with the left operand of an assignment first. -/
def envDefaulted : Env :=
  ⟨typeName, fun _ _ => Except.ok [], Create, false, fun _ members _ => members⟩

end ut

/-- The type argument and arguments of a call, when it is an `OverwriteFactory`
for the slot `key`. -/
def Call.overwrites (key : type_index) : Call → Option (QualType ClassDecl × List Int)
  | Call.OverwriteFactory TFactory rrArgs =>
    if FactoryInjector.GetInterfaceTypeIndex TFactory = key then some (TFactory, rrArgs) else none
  | _ => none

/-- The type argument and arguments of a call, when it is a `RegisterFactory`
for the slot `key`. -/
def Call.registers (key : type_index) : Call → Option (QualType ClassDecl × List Int)
  | Call.RegisterFactory TFactory rrArgs =>
    if FactoryInjector.GetInterfaceTypeIndex TFactory = key then some (TFactory, rrArgs) else none
  | _ => none

/-- Whether a call is an `OverwriteFactory` or a `RegisterFactory` for the slot `key`. -/
def Call.writesSlot (key : type_index) (c : Call) : Bool :=
  (c.overwrites key).isSome || (c.registers key).isSome

/-- The last `OverwriteFactory` for the slot `key` in a sequence of calls. -/
def lastOverwrite (key : type_index) : List Call → Option (QualType ClassDecl × List Int)
  | [] => none
  | c :: rest =>
    match lastOverwrite key rest with
    | some w => some w
    | none => c.overwrites key

/-- The first `RegisterFactory` for the slot `key` in a sequence of calls. -/
def firstRegister (key : type_index) : List Call → Option (QualType ClassDecl × List Int)
  | [] => none
  | c :: rest =>
    match c.registers key with
    | some w => some w
    | none => firstRegister key rest

/-- The writer of the slot `key` by the order of the calls alone: the last
`OverwriteFactory` for it, or the first `RegisterFactory` for it when no
`OverwriteFactory` for it is in the sequence. -/
def lastWriter (key : type_index) (calls : List Call) :
    Option (QualType ClassDecl × List Int) :=
  match lastOverwrite key calls with
  | some w => some w
  | none => firstRegister key calls

/-- Whether an outcome is a `FactoryAlreadyRegisteredEx` thrown by the registry. -/
def Outcome.isAlreadyRegistered {α : Type} : Outcome α → Bool
  | Outcome.throws e => decide (e.kind = ExKind.FactoryAlreadyRegisteredEx)
  | _ => false

/-- The type argument and arguments of a call made on the registry `self`, when
it is a call for the slot `key` that does not end in `FactoryAlreadyRegisteredEx`. -/
def Call.successfulWrite (env : Env) (self : FactoryInjector) (key : type_index) :
    Call → Option (QualType ClassDecl × List Int)
  | Call.OverwriteFactory TFactory rrArgs =>
    if FactoryInjector.GetInterfaceTypeIndex TFactory = key then some (TFactory, rrArgs) else none
  | Call.RegisterFactory TFactory rrArgs =>
    if FactoryInjector.GetInterfaceTypeIndex TFactory = key then
      if (FactoryInjector.RegisterFactory env self TFactory rrArgs).2.isAlreadyRegistered then none
      else some (TFactory, rrArgs)
    else none
  | _ => none

/-- The last call for the slot `key` that did not end in
`FactoryAlreadyRegisteredEx` when the sequence runs from the registry `self`. -/
def FactoryInjector.lastSuccessfulWrite (env : Env) (self : FactoryInjector)
    (key : type_index) : List Call → Option (QualType ClassDecl × List Int)
  | [] => none
  | c :: rest =>
    match FactoryInjector.lastSuccessfulWrite env (FactoryInjector.call env self c) key rest with
    | some w => some w
    | none => c.successfulWrite env self key

end factory_injector

/-! ## Lookup and creation, statement by statement -/

namespace factory_injector

open injector_details

namespace ut

/-- A factory outside the test file whose `Create` is not `const` and counts
its calls in a data member:
`class CountingFactory : public IDummyClassFactory` with `int mCount = 0;` and
`Create() { ++mCount; return std::make_unique<DummyClass1>(); }`. -/
def CountingFactory : ClassDecl :=
  ClassDecl.derived "CountingFactory" IDummyClassFactory

/-- The test program with `CountingFactory` added. -/
def envCounting : Env :=
  ⟨typeName,
    fun c _ => if c = "CountingFactory" then Except.ok [0] else Except.ok [],
    fun c members args =>
      if c = "CountingFactory" then Except.ok ⟨"DummyClass1", []⟩ else Create c members args,
    true,
    fun c members _ => if c = "CountingFactory" then members.map (fun x => x + 1) else members⟩

end ut

/-- The member function `RealInstance::GetPtr()` as a step on the holder it is
called on: the holder it leaves and the pointer it returns. It is not `const`;
its body is `return mInstancePtr.get();`. -/
def injector_details.RealInstance.GetPtrStep (self : RealInstance) :
    RealInstance × Option Object :=
  (self, self.mInstancePtr)

/-- A write to the data members of the object the holder under `key` points to. -/
def tInstanceCont.writeObject : tInstanceCont → type_index → Object → tInstanceCont
  | [], _, _ => []
  | (k, v) :: rest, key, obj =>
    if k = key then (k, v.map (fun holder => ⟨holder.TInstance, some obj⟩)) :: rest
    else (k, v) :: tInstanceCont.writeObject rest key obj

/-- The member function `FactoryInjector::GetFactory<TFactory>()` with the
registry it leaves: `FindFactory` is `const`, and
`instance_itr->second->GetPtr()` runs `GetPtr` on the holder in the slot. -/
def FactoryInjector.GetFactoryStep (env : Env) (self : FactoryInjector)
    (TFactory : QualType ClassDecl) : FactoryInjector × Outcome Ref :=
  let type_idx := FactoryInjector.GetInterfaceTypeIndex TFactory
  match FactoryInjector.FindFactory self TFactory with
  | some second =>
    match second with
    | none => (self, Outcome.undefined)
    | some holder =>
      let step := holder.GetPtrStep
      let after : FactoryInjector :=
        ⟨tInstanceCont.assign self.mInstanceCont type_idx (some step.1)⟩
      match step.2 with
      | none => (after, Outcome.undefined)
      | some obj =>
        (after, Outcome.returns ⟨traits_details.get_interface_const_ref TFactory, obj⟩)
  | none =>
    (self, Outcome.throws (FactoryNotRegisteredEx (type_info.name env (typeid TFactory.byName))))

/-- The member function `FactoryInjector::CreateObject<TFactory>(rrArgs...)` with
the registry it leaves: `factory.Create(rrArgs...)` runs on the stored object
that `factory` refers to and may write its data members. -/
def FactoryInjector.CreateObjectStep (env : Env) (self : FactoryInjector)
    (TFactory : QualType ClassDecl) (rrArgs : List Int) : FactoryInjector × Outcome Object :=
  let type_idx := FactoryInjector.GetInterfaceTypeIndex TFactory
  match FactoryInjector.GetFactoryStep env self TFactory with
  | (after, Outcome.returns factory) =>
    let target : Object :=
      ⟨factory.target.dynType,
        env.CreateEffect factory.target.dynType factory.target.members rrArgs⟩
    (⟨tInstanceCont.writeObject after.mInstanceCont type_idx target⟩,
      Ref.Create env factory rrArgs)
  | (after, Outcome.throws e) => (after, Outcome.throws e)
  | (after, Outcome.propagates what) => (after, Outcome.propagates what)
  | (after, Outcome.undefined) => (after, Outcome.undefined)

/-- The registry a call leaves behind, whatever its outcome, with the bodies
of `GetFactory` and `CreateObject` followed. -/
def FactoryInjector.callStep (env : Env) (self : FactoryInjector) : Call → FactoryInjector
  | Call.OverwriteFactory TFactory rrArgs =>
    (FactoryInjector.OverwriteFactory env self TFactory rrArgs).1
  | Call.RegisterFactory TFactory rrArgs =>
    (FactoryInjector.RegisterFactory env self TFactory rrArgs).1
  | Call.GetFactory TFactory => (FactoryInjector.GetFactoryStep env self TFactory).1
  | Call.CreateObject TFactory rrArgs =>
    (FactoryInjector.CreateObjectStep env self TFactory rrArgs).1

/-- The registry after a sequence of calls, first to last, with the bodies of
`GetFactory` and `CreateObject` followed. -/
def FactoryInjector.runStep (env : Env) (self : FactoryInjector) : List Call → FactoryInjector
  | [] => self
  | c :: rest => FactoryInjector.runStep env (FactoryInjector.callStep env self c) rest

end factory_injector

/-! ## Addresses of stored objects -/

namespace factory_injector

/-- A pointer value: the class it points to (`none` for `void*`) and the
address it holds. -/
structure Pointer where
  pointee : Option String
  address : Nat
deriving DecidableEq, Repr

/-- What the C++ ABI fixes and the headers do not: `baseOffset derived base` is
the distance in bytes from the start of an object of class `derived` to its
base subobject of class `base`. -/
structure Layout where
  baseOffset : String → String → Nat

/-- The pointer `mInstancePtr.get()` of a `RealInstance<TInstance>` whose object
lies at `address`. -/
def injector_details.RealInstance.get (TInstance : String) (address : Nat) : Pointer :=
  ⟨some TInstance, address⟩

/-- The conversion of an object pointer to `void*`: the address of the start of
the object. -/
def Pointer.toVoid (p : Pointer) : Pointer :=
  ⟨none, p.address⟩

/-- The member function `RealInstance<TInstance>::GetPtr()` on addresses:
`return mInstancePtr.get();` with return type `void*`. -/
def injector_details.RealInstance.GetPtrAddress (TInstance : String) (address : Nat) :
    Pointer :=
  (injector_details.RealInstance.get TInstance address).toVoid

/-- The cast `static_cast<tInterface *>(p)` of a `void*`: the address is taken as
it is. -/
def Pointer.staticCastFromVoid (p : Pointer) (tInterface : String) : Pointer :=
  ⟨some tInterface, p.address⟩

/-- The pointer `GetFactory` dereferences:
`static_cast<tInterface *>(instance_itr->second->GetPtr())`. -/
def FactoryInjector.GetFactoryAddress (TInstance tInterface : String) (address : Nat) :
    Pointer :=
  (injector_details.RealInstance.GetPtrAddress TInstance address).staticCastFromVoid tInterface

/-- The pointer to the `base` subobject of an object of class `derived`, as the
derived-to-base conversion of a `derived*` gives it. -/
def Layout.toBase (layout : Layout) (p : Pointer) (derived base : String) : Pointer :=
  ⟨some base, p.address + layout.baseOffset derived base⟩

/-- The pointer to the `tInterface` subobject of the stored `TInstance` object. -/
def Layout.subobject (layout : Layout) (TInstance tInterface : String) (address : Nat) :
    Pointer :=
  layout.toBase (injector_details.RealInstance.get TInstance address) TInstance tInterface

namespace ut

/-- The layout of the test classes under the Itanium C++ ABI on a 64-bit
target, with one class outside the test file,
`class SecondBaseFactory : public Mixin, public IDummyClassFactory`, where
`class Mixin` has a virtual destructor and no data member: its
`IDummyClassFactory` subobject follows the `Mixin` subobject, which is one
pointer to a virtual table; every other base subobject starts its object. -/
def layout : Layout :=
  ⟨fun derived base =>
    if derived = "SecondBaseFactory" ∧ base = "IDummyClassFactory" then 8 else 0⟩

end ut

end factory_injector

/-! ## The container operations -/

namespace factory_injector

open injector_details

theorem tInstanceCont.find_append_absent (m : tInstanceCont) (k : type_index)
    (x : tAnyInstancePtr) (h : tInstanceCont.find m k = none) :
    tInstanceCont.find (m ++ [(k, x)]) k = some x := by
  induction m with
  | nil => simp [tInstanceCont.find]
  | cons e rest ih =>
    obtain ⟨k0, v0⟩ := e
    by_cases hk : k0 = k
    · simp [tInstanceCont.find, hk] at h
    · simp only [tInstanceCont.find, hk, if_false, List.cons_append] at h ⊢
      exact ih h

theorem tInstanceCont.find_append_other (m : tInstanceCont) (k key : type_index)
    (x : tAnyInstancePtr) (h : k ≠ key) :
    tInstanceCont.find (m ++ [(k, x)]) key = tInstanceCont.find m key := by
  induction m with
  | nil => simp [tInstanceCont.find, h]
  | cons e rest ih =>
    obtain ⟨k0, v0⟩ := e
    by_cases hk : k0 = key
    · simp [tInstanceCont.find, hk]
    · simp only [tInstanceCont.find, hk, if_false, List.cons_append]
      exact ih

theorem tInstanceCont.find_assign_same (m : tInstanceCont) (k : type_index)
    (p : tAnyInstancePtr) (h : tInstanceCont.find m k ≠ none) :
    tInstanceCont.find (tInstanceCont.assign m k p) k = some p := by
  induction m with
  | nil => simp [tInstanceCont.find] at h
  | cons e rest ih =>
    obtain ⟨k0, v0⟩ := e
    by_cases hk : k0 = k
    · simp [tInstanceCont.find, tInstanceCont.assign, hk]
    · simp only [tInstanceCont.find, tInstanceCont.assign, hk, if_false] at h ⊢
      exact ih h

theorem tInstanceCont.find_assign_other (m : tInstanceCont) (k key : type_index)
    (p : tAnyInstancePtr) (h : k ≠ key) :
    tInstanceCont.find (tInstanceCont.assign m k p) key = tInstanceCont.find m key := by
  induction m with
  | nil => simp [tInstanceCont.find, tInstanceCont.assign]
  | cons e rest ih =>
    obtain ⟨k0, v0⟩ := e
    by_cases hk : k0 = k
    · subst hk
      simp [tInstanceCont.find, tInstanceCont.assign, h]
    · by_cases hk2 : k0 = key
      · subst hk2
        simp [tInstanceCont.find, tInstanceCont.assign, hk]
      · simp only [tInstanceCont.find, tInstanceCont.assign, hk, hk2, if_false]
        exact ih

theorem tInstanceCont.find_subscript_same (m : tInstanceCont) (k : type_index) :
    tInstanceCont.find (tInstanceCont.subscript m k) k ≠ none := by
  unfold tInstanceCont.subscript
  cases h : tInstanceCont.find m k with
  | none => simp [tInstanceCont.find_append_absent m k none h]
  | some v => simp [h]

theorem tInstanceCont.find_subscript_other (m : tInstanceCont) (k key : type_index)
    (h : k ≠ key) :
    tInstanceCont.find (tInstanceCont.subscript m k) key = tInstanceCont.find m key := by
  unfold tInstanceCont.subscript
  cases hf : tInstanceCont.find m k with
  | none => simp [tInstanceCont.find_append_other m k key none h]
  | some v => simp

theorem tInstanceCont.subscript_present (m : tInstanceCont) (k : type_index)
    (h : tInstanceCont.find m k ≠ none) : tInstanceCont.subscript m k = m := by
  unfold tInstanceCont.subscript
  cases hf : tInstanceCont.find m k with
  | none => exact absurd hf h
  | some v => simp

theorem tInstanceCont.find_store_same (m : tInstanceCont) (k : type_index)
    (p : tAnyInstancePtr) :
    tInstanceCont.find (tInstanceCont.assign (tInstanceCont.subscript m k) k p) k = some p :=
  tInstanceCont.find_assign_same _ k p (tInstanceCont.find_subscript_same m k)

theorem tInstanceCont.find_store_other (m : tInstanceCont) (k key : type_index)
    (p : tAnyInstancePtr) (h : k ≠ key) :
    tInstanceCont.find (tInstanceCont.assign (tInstanceCont.subscript m k) k p) key
      = tInstanceCont.find m key := by
  rw [tInstanceCont.find_assign_other _ k key p h, tInstanceCont.find_subscript_other m k key h]

/-! ## The member functions, step by step -/

theorem traits_details.get_factory_base (T : QualType ClassDecl) :
    (traits_details.get_factory T).base = T.base := by
  simp [traits_details.get_factory, traits_details.remove_const_ref, std.remove_cv,
    std.remove_reference]

theorem traits_details.get_interface_eq (T : QualType ClassDecl) :
    traits_details.get_interface T = T.base.tInterface := by
  simp [traits_details.get_interface, traits_details.get_factory_base]

/-- On an unqualified class type `add_const_ref` gives the plain lvalue
reference: `std::add_const` meets a reference type and adds nothing. -/
theorem traits_details.add_const_ref_plain {α : Type} (c : α) :
    traits_details.add_const_ref (QualType.plain c) = QualType.mutRef c := by
  simp [traits_details.add_const_ref, std.add_const, std.add_lvalue_reference, QualType.plain,
    QualType.mutRef]

theorem MakeUniqueAnyInstance_ok (env : Env) (T : QualType ClassDecl) (rrArgs : List Int)
    (members : List Int) (h : env.construct T.base.name rrArgs = Except.ok members) :
    MakeUniqueAnyInstance env (traits_details.get_factory T) rrArgs
      = Except.ok (some ⟨T.base.name, some ⟨T.base.name, members⟩⟩) := by
  simp [MakeUniqueAnyInstance, RealInstance.new, traits_details.get_factory_base, h]

theorem MakeUniqueAnyInstance_error (env : Env) (T : QualType ClassDecl) (rrArgs : List Int)
    (what : String) (h : env.construct T.base.name rrArgs = Except.error what) :
    MakeUniqueAnyInstance env (traits_details.get_factory T) rrArgs = Except.error what := by
  simp [MakeUniqueAnyInstance, RealInstance.new, traits_details.get_factory_base, h]

/-- A successful construction: the new holder ends in the slot of the interface,
whichever operand is evaluated first. -/
theorem FactoryInjector.OverwriteFactory_ok (env : Env) (self : FactoryInjector)
    (T : QualType ClassDecl) (rrArgs : List Int) (members : List Int)
    (h : env.construct T.base.name rrArgs = Except.ok members) :
    FactoryInjector.OverwriteFactory env self T rrArgs
      = (⟨tInstanceCont.assign
            (tInstanceCont.subscript self.mInstanceCont (FactoryInjector.GetInterfaceTypeIndex T))
            (FactoryInjector.GetInterfaceTypeIndex T)
            (some ⟨T.base.name, some ⟨T.base.name, members⟩⟩)⟩, Outcome.returns ()) := by
  unfold FactoryInjector.OverwriteFactory
  simp only [MakeUniqueAnyInstance_ok env T rrArgs members h]
  cases env.rhsFirst <;> simp

/-- A throwing construction: the exception passes through, and the registry is
the one before the call or, with the left operand first, the one `operator[]`
left. -/
theorem FactoryInjector.OverwriteFactory_error (env : Env) (self : FactoryInjector)
    (T : QualType ClassDecl) (rrArgs : List Int) (what : String)
    (h : env.construct T.base.name rrArgs = Except.error what) :
    FactoryInjector.OverwriteFactory env self T rrArgs
      = (if env.rhsFirst then self
          else ⟨tInstanceCont.subscript self.mInstanceCont
                  (FactoryInjector.GetInterfaceTypeIndex T)⟩,
         Outcome.propagates what) := by
  unfold FactoryInjector.OverwriteFactory
  simp only [MakeUniqueAnyInstance_error env T rrArgs what h]
  cases env.rhsFirst <;> simp

theorem FactoryInjector.OverwriteFactory_returns (env : Env) (self : FactoryInjector)
    (T : QualType ClassDecl) (rrArgs : List Int)
    (h : (FactoryInjector.OverwriteFactory env self T rrArgs).2 = Outcome.returns ()) :
    ∃ members, env.construct T.base.name rrArgs = Except.ok members := by
  cases hc : env.construct T.base.name rrArgs with
  | ok members => exact ⟨members, rfl⟩
  | error what =>
    rw [FactoryInjector.OverwriteFactory_error env self T rrArgs what hc] at h
    simp at h

theorem FactoryInjector.OverwriteFactory_outcome (env : Env) (self : FactoryInjector)
    (T : QualType ClassDecl) (rrArgs : List Int) :
    (FactoryInjector.OverwriteFactory env self T rrArgs).2
      = match env.construct T.base.name rrArgs with
        | Except.ok _ => Outcome.returns ()
        | Except.error what => Outcome.propagates what := by
  cases hc : env.construct T.base.name rrArgs with
  | ok members => rw [FactoryInjector.OverwriteFactory_ok env self T rrArgs members hc]
  | error what => rw [FactoryInjector.OverwriteFactory_error env self T rrArgs what hc]

theorem FactoryInjector.RegisterFactory_absent (env : Env) (self : FactoryInjector)
    (T : QualType ClassDecl) (rrArgs : List Int)
    (h : tInstanceCont.find self.mInstanceCont (FactoryInjector.GetInterfaceTypeIndex T) = none) :
    FactoryInjector.RegisterFactory env self T rrArgs
      = FactoryInjector.OverwriteFactory env self T rrArgs := by
  simp [FactoryInjector.RegisterFactory, FactoryInjector.FindFactory, h]

theorem FactoryInjector.RegisterFactory_present (env : Env) (self : FactoryInjector)
    (T : QualType ClassDecl) (rrArgs : List Int)
    (h : tInstanceCont.find self.mInstanceCont (FactoryInjector.GetInterfaceTypeIndex T) ≠ none) :
    FactoryInjector.RegisterFactory env self T rrArgs
      = (self, Outcome.throws (FactoryAlreadyRegisteredEx (env.typeName T.base.name))) := by
  unfold FactoryInjector.RegisterFactory FactoryInjector.FindFactory
  cases hf : tInstanceCont.find self.mInstanceCont (FactoryInjector.GetInterfaceTypeIndex T) with
  | none => exact absurd hf h
  | some v => simp [type_info.name, typeid, QualType.byName]

theorem FactoryInjector.GetFactory_absent (env : Env) (self : FactoryInjector)
    (T : QualType ClassDecl)
    (h : tInstanceCont.find self.mInstanceCont (FactoryInjector.GetInterfaceTypeIndex T) = none) :
    FactoryInjector.GetFactory env self T
      = Outcome.throws (FactoryNotRegisteredEx (env.typeName T.base.name)) := by
  simp [FactoryInjector.GetFactory, FactoryInjector.FindFactory, h, type_info.name, typeid,
    QualType.byName]

theorem FactoryInjector.GetFactory_present (env : Env) (self : FactoryInjector)
    (T : QualType ClassDecl) (TInstance : String) (obj : Object)
    (h : tInstanceCont.find self.mInstanceCont (FactoryInjector.GetInterfaceTypeIndex T)
          = some (some ⟨TInstance, some obj⟩)) :
    FactoryInjector.GetFactory env self T
      = Outcome.returns ⟨traits_details.get_interface_const_ref T, obj⟩ := by
  simp [FactoryInjector.GetFactory, FactoryInjector.FindFactory, h, RealInstance.GetPtr]

theorem FactoryInjector.GetFactory_not_throws (env : Env) (self : FactoryInjector)
    (T : QualType ClassDecl)
    (h : tInstanceCont.find self.mInstanceCont (FactoryInjector.GetInterfaceTypeIndex T) ≠ none)
    (e : Exception) : FactoryInjector.GetFactory env self T ≠ Outcome.throws e := by
  unfold FactoryInjector.GetFactory FactoryInjector.FindFactory
  cases hf : tInstanceCont.find self.mInstanceCont (FactoryInjector.GetInterfaceTypeIndex T) with
  | none => exact absurd hf h
  | some second =>
    cases second with
    | none => simp
    | some holder =>
      cases hp : holder.GetPtr with
      | none => simp [hp]
      | some obj => simp [hp]

theorem FactoryInjector.GetInterfaceTypeIndex_eq (T U : QualType ClassDecl)
    (h : traits_details.get_interface T = traits_details.get_interface U) :
    FactoryInjector.GetInterfaceTypeIndex T = FactoryInjector.GetInterfaceTypeIndex U := by
  simp [FactoryInjector.GetInterfaceTypeIndex, h]

/-! ## Slots other than the one written, and slots once written -/

theorem FactoryInjector.OverwriteFactory_find_other (env : Env) (self : FactoryInjector)
    (T : QualType ClassDecl) (rrArgs : List Int) (key : type_index)
    (h : FactoryInjector.GetInterfaceTypeIndex T ≠ key) :
    tInstanceCont.find (FactoryInjector.OverwriteFactory env self T rrArgs).1.mInstanceCont key
      = tInstanceCont.find self.mInstanceCont key := by
  cases hc : env.construct T.base.name rrArgs with
  | ok members =>
    rw [FactoryInjector.OverwriteFactory_ok env self T rrArgs members hc]
    exact tInstanceCont.find_store_other _ _ _ _ h
  | error what =>
    rw [FactoryInjector.OverwriteFactory_error env self T rrArgs what hc]
    cases env.rhsFirst
    · exact tInstanceCont.find_subscript_other _ _ _ h
    · rfl

theorem FactoryInjector.OverwriteFactory_find_same (env : Env) (self : FactoryInjector)
    (T : QualType ClassDecl) (rrArgs : List Int)
    (h : (FactoryInjector.OverwriteFactory env self T rrArgs).2 = Outcome.returns ()) :
    tInstanceCont.find (FactoryInjector.OverwriteFactory env self T rrArgs).1.mInstanceCont
      (FactoryInjector.GetInterfaceTypeIndex T) ≠ none := by
  obtain ⟨members, hc⟩ := FactoryInjector.OverwriteFactory_returns env self T rrArgs h
  rw [FactoryInjector.OverwriteFactory_ok env self T rrArgs members hc]
  simp [tInstanceCont.find_store_same]

theorem FactoryInjector.OverwriteFactory_find_kept (env : Env) (self : FactoryInjector)
    (T : QualType ClassDecl) (rrArgs : List Int) (key : type_index)
    (h : tInstanceCont.find self.mInstanceCont key ≠ none) :
    tInstanceCont.find (FactoryInjector.OverwriteFactory env self T rrArgs).1.mInstanceCont key
      ≠ none := by
  by_cases hk : FactoryInjector.GetInterfaceTypeIndex T = key
  · subst hk
    cases hc : env.construct T.base.name rrArgs with
    | ok members =>
      rw [FactoryInjector.OverwriteFactory_ok env self T rrArgs members hc]
      simp [tInstanceCont.find_store_same]
    | error what =>
      rw [FactoryInjector.OverwriteFactory_error env self T rrArgs what hc]
      cases env.rhsFirst
      · exact tInstanceCont.find_subscript_same _ _
      · exact h
  · rw [FactoryInjector.OverwriteFactory_find_other env self T rrArgs key hk]
    exact h

theorem FactoryInjector.RegisterFactory_find_other (env : Env) (self : FactoryInjector)
    (T : QualType ClassDecl) (rrArgs : List Int) (key : type_index)
    (h : FactoryInjector.GetInterfaceTypeIndex T ≠ key) :
    tInstanceCont.find (FactoryInjector.RegisterFactory env self T rrArgs).1.mInstanceCont key
      = tInstanceCont.find self.mInstanceCont key := by
  by_cases hf : tInstanceCont.find self.mInstanceCont (FactoryInjector.GetInterfaceTypeIndex T)
      = none
  · rw [FactoryInjector.RegisterFactory_absent env self T rrArgs hf]
    exact FactoryInjector.OverwriteFactory_find_other env self T rrArgs key h
  · rw [FactoryInjector.RegisterFactory_present env self T rrArgs hf]

theorem FactoryInjector.RegisterFactory_find_kept (env : Env) (self : FactoryInjector)
    (T : QualType ClassDecl) (rrArgs : List Int) (key : type_index)
    (h : tInstanceCont.find self.mInstanceCont key ≠ none) :
    tInstanceCont.find (FactoryInjector.RegisterFactory env self T rrArgs).1.mInstanceCont key
      ≠ none := by
  by_cases hf : tInstanceCont.find self.mInstanceCont (FactoryInjector.GetInterfaceTypeIndex T)
      = none
  · rw [FactoryInjector.RegisterFactory_absent env self T rrArgs hf]
    exact FactoryInjector.OverwriteFactory_find_kept env self T rrArgs key h
  · rw [FactoryInjector.RegisterFactory_present env self T rrArgs hf]
    exact h

theorem FactoryInjector.call_find_other (env : Env) (self : FactoryInjector) (c : Call)
    (key : type_index) (h : FactoryInjector.GetInterfaceTypeIndex c.TFactory ≠ key) :
    tInstanceCont.find (FactoryInjector.call env self c).mInstanceCont key
      = tInstanceCont.find self.mInstanceCont key := by
  cases c with
  | OverwriteFactory T rrArgs =>
    exact FactoryInjector.OverwriteFactory_find_other env self T rrArgs key h
  | RegisterFactory T rrArgs =>
    exact FactoryInjector.RegisterFactory_find_other env self T rrArgs key h
  | GetFactory T => rfl
  | CreateObject T rrArgs => rfl

theorem FactoryInjector.call_find_kept (env : Env) (self : FactoryInjector) (c : Call)
    (key : type_index) (h : tInstanceCont.find self.mInstanceCont key ≠ none) :
    tInstanceCont.find (FactoryInjector.call env self c).mInstanceCont key ≠ none := by
  cases c with
  | OverwriteFactory T rrArgs =>
    exact FactoryInjector.OverwriteFactory_find_kept env self T rrArgs key h
  | RegisterFactory T rrArgs =>
    exact FactoryInjector.RegisterFactory_find_kept env self T rrArgs key h
  | GetFactory T => exact h
  | CreateObject T rrArgs => exact h

theorem FactoryInjector.run_find_other (env : Env) (calls : List Call) (self : FactoryInjector)
    (key : type_index)
    (h : ∀ c ∈ calls, FactoryInjector.GetInterfaceTypeIndex c.TFactory ≠ key) :
    tInstanceCont.find (FactoryInjector.run env self calls).mInstanceCont key
      = tInstanceCont.find self.mInstanceCont key := by
  induction calls generalizing self with
  | nil => rfl
  | cons c rest ih =>
    simp only [FactoryInjector.run]
    rw [ih _ (fun d hd => h d (List.mem_cons_of_mem c hd))]
    exact FactoryInjector.call_find_other env self c key (h c (List.mem_cons_self c rest))

theorem FactoryInjector.run_find_kept (env : Env) (calls : List Call) (self : FactoryInjector)
    (key : type_index) (h : tInstanceCont.find self.mInstanceCont key ≠ none) :
    tInstanceCont.find (FactoryInjector.run env self calls).mInstanceCont key ≠ none := by
  induction calls generalizing self with
  | nil => exact h
  | cons c rest ih =>
    simp only [FactoryInjector.run]
    exact ih _ (FactoryInjector.call_find_kept env self c key h)

theorem FactoryInjector.RegisterFactory_throws_present (env : Env) (self : FactoryInjector)
    (F : QualType ClassDecl) (rrArgs : List Int) :
    (∃ e, (FactoryInjector.RegisterFactory env self F rrArgs).2 = Outcome.throws e ∧
        e.kind = ExKind.FactoryAlreadyRegisteredEx) →
    tInstanceCont.find self.mInstanceCont (FactoryInjector.GetInterfaceTypeIndex F) ≠ none := by
  rintro ⟨e, he, _⟩ habs
  rw [FactoryInjector.RegisterFactory_absent env self F rrArgs habs,
    FactoryInjector.OverwriteFactory_outcome] at he
  cases hc : env.construct F.base.name rrArgs <;> simp [hc] at he

/-- A class that declares no `tInterface` between itself and `I` has the
`tInterface` of `I`. -/
theorem ClassDecl.tInterface_of_inheritsTypedefFrom (I F : ClassDecl)
    (h : ClassDecl.inheritsTypedefFrom I F) : F.tInterface = I.tInterface := by
  induction F with
  | traits name TInterface TObject =>
    simp only [ClassDecl.inheritsTypedefFrom] at h
    rw [h]
  | derived name base ih =>
    simp only [ClassDecl.inheritsTypedefFrom] at h
    rcases h with h | h
    · rw [h]
    · simp only [ClassDecl.tInterface]
      exact ih h
  | redeclares name tInterface base ih =>
    simp only [ClassDecl.inheritsTypedefFrom] at h
    rw [h]

/-- A class that inherits the typedef of `I` derives from `I`. -/
theorem ClassDecl.derivesFrom_of_inheritsTypedefFrom (I F : ClassDecl)
    (h : ClassDecl.inheritsTypedefFrom I F) : ClassDecl.derivesFrom I F := by
  induction F with
  | traits name TInterface TObject => exact h
  | derived name base ih =>
    simp only [ClassDecl.inheritsTypedefFrom] at h
    simp only [ClassDecl.derivesFrom]
    rcases h with h | h
    · exact Or.inl h
    · exact Or.inr (ih h)
  | redeclares name tInterface base ih =>
    simp only [ClassDecl.inheritsTypedefFrom] at h
    simp only [ClassDecl.derivesFrom]
    exact Or.inl h

/-- The helper `add_const_ref` makes an lvalue reference and leaves the
qualifiers of the referenced type as they are. -/
theorem traits_details.add_const_ref_eq {α : Type} (T : QualType α) :
    traits_details.add_const_ref T = ⟨T.base, T.isConst, T.isVolatile, RefKind.lvalue⟩ := by
  simp [traits_details.add_const_ref, std.add_const, std.add_lvalue_reference]

/-! ## Registration and lookup -/

/-- C1: if the slot of interface `I` is empty and `F` declares `I` as its
interface, then after `RegisterFactory<F>(args)` has returned, `GetFactory<I>()`
and `GetFactory<F>()` both return, they return the same reference, and the
object referred to is the `F` object built from `args` (its dynamic type is `F`,
its members are what the constructor of `F` made of `args`). -/
theorem C1_register_then_get_same_instance (env : Env) (self : FactoryInjector)
    (F : QualType ClassDecl) (I : ClassDecl) (rrArgs : List Int)
    (hI : I.tInterface = QualType.plain I.name)
    (hF : traits_details.get_interface F = QualType.plain I.name)
    (hempty : FactoryInjector.FindFactory self (QualType.plain I) = none)
    (hret : (FactoryInjector.RegisterFactory env self F rrArgs).2 = Outcome.returns ()) :
    ∃ members, env.construct F.base.name rrArgs = Except.ok members ∧
      FactoryInjector.GetFactory env (FactoryInjector.RegisterFactory env self F rrArgs).1
          (QualType.plain I)
        = Outcome.returns ⟨QualType.mutRef I.name, ⟨F.base.name, members⟩⟩ ∧
      FactoryInjector.GetFactory env (FactoryInjector.RegisterFactory env self F rrArgs).1 F
        = FactoryInjector.GetFactory env (FactoryInjector.RegisterFactory env self F rrArgs).1
            (QualType.plain I) := by
  have hIi : traits_details.get_interface (QualType.plain I) = QualType.plain I.name := by
    rw [traits_details.get_interface_eq]; exact hI
  have hidx : FactoryInjector.GetInterfaceTypeIndex F
      = FactoryInjector.GetInterfaceTypeIndex (QualType.plain I) :=
    FactoryInjector.GetInterfaceTypeIndex_eq _ _ (hF.trans hIi.symm)
  have habs : tInstanceCont.find self.mInstanceCont (FactoryInjector.GetInterfaceTypeIndex F)
      = none := by
    rw [hidx]; exact hempty
  rw [FactoryInjector.RegisterFactory_absent env self F rrArgs habs] at hret ⊢
  obtain ⟨members, hc⟩ := FactoryInjector.OverwriteFactory_returns env self F rrArgs hret
  refine ⟨members, hc, ?_, ?_⟩
  · rw [FactoryInjector.OverwriteFactory_ok env self F rrArgs members hc]
    rw [FactoryInjector.GetFactory_present env _ (QualType.plain I) F.base.name
      ⟨F.base.name, members⟩ (by rw [← hidx]; exact tInstanceCont.find_store_same _ _ _)]
    rw [traits_details.get_interface_const_ref, hIi, traits_details.add_const_ref_plain]
  · rw [FactoryInjector.OverwriteFactory_ok env self F rrArgs members hc]
    rw [FactoryInjector.GetFactory_present env _ (QualType.plain I) F.base.name
      ⟨F.base.name, members⟩ (by rw [← hidx]; exact tInstanceCont.find_store_same _ _ _)]
    rw [FactoryInjector.GetFactory_present env _ F F.base.name
      ⟨F.base.name, members⟩ (tInstanceCont.find_store_same _ _ _)]
    simp [traits_details.get_interface_const_ref, hIi, hF]

/-- C1 at the first unit test: `RegisterFactory<DummyClass1Factory>()` on a new
injector, then `GetFactory` by class type and by interface type. -/
theorem C1_register_then_get_same_instance_witness :
    ∃ members, ut.env.construct "DummyClass1Factory" [] = Except.ok members ∧
      FactoryInjector.GetFactory ut.env
          (FactoryInjector.RegisterFactory ut.env FactoryInjector.new
            (QualType.plain ut.DummyClass1Factory) []).1
          (QualType.plain ut.IDummyClassFactory)
        = Outcome.returns ⟨QualType.mutRef "IDummyClassFactory", ⟨"DummyClass1Factory", members⟩⟩ ∧
      FactoryInjector.GetFactory ut.env
          (FactoryInjector.RegisterFactory ut.env FactoryInjector.new
            (QualType.plain ut.DummyClass1Factory) []).1
          (QualType.plain ut.DummyClass1Factory)
        = FactoryInjector.GetFactory ut.env
          (FactoryInjector.RegisterFactory ut.env FactoryInjector.new
            (QualType.plain ut.DummyClass1Factory) []).1
          (QualType.plain ut.IDummyClassFactory) :=
  C1_register_then_get_same_instance ut.env FactoryInjector.new
    (QualType.plain ut.DummyClass1Factory) ut.IDummyClassFactory [] (by decide) (by decide)
    (by decide) (by decide)

/-- C2: whatever the slot of `I` holds, `OverwriteFactory<F2>(args)` for a
factory `F2` of `I` never ends in an exception of the registry nor in undefined
behaviour; when it returns, which it does exactly when the constructor of `F2`
does, `GetFactory<I>()` returns the `F2` object built from `args`, and this is
not a previous occupant of another dynamic type. -/
theorem C2_overwrite_replaces_instance (env : Env) (self : FactoryInjector)
    (F2 : QualType ClassDecl) (I : ClassDecl) (rrArgs : List Int)
    (hI : I.tInterface = QualType.plain I.name)
    (hF : traits_details.get_interface F2 = QualType.plain I.name) :
    (∀ e, (FactoryInjector.OverwriteFactory env self F2 rrArgs).2 ≠ Outcome.throws e) ∧
    (FactoryInjector.OverwriteFactory env self F2 rrArgs).2 ≠ Outcome.undefined ∧
    (∀ members, env.construct F2.base.name rrArgs = Except.ok members →
      (FactoryInjector.OverwriteFactory env self F2 rrArgs).2 = Outcome.returns () ∧
      FactoryInjector.GetFactory env (FactoryInjector.OverwriteFactory env self F2 rrArgs).1
          (QualType.plain I)
        = Outcome.returns ⟨QualType.mutRef I.name, ⟨F2.base.name, members⟩⟩ ∧
      ∀ previous, FactoryInjector.GetFactory env self (QualType.plain I)
          = Outcome.returns previous →
        previous.target.dynType ≠ F2.base.name →
        FactoryInjector.GetFactory env (FactoryInjector.OverwriteFactory env self F2 rrArgs).1
          (QualType.plain I) ≠ Outcome.returns previous) := by
  have hIi : traits_details.get_interface (QualType.plain I) = QualType.plain I.name := by
    rw [traits_details.get_interface_eq]; exact hI
  have hidx : FactoryInjector.GetInterfaceTypeIndex F2
      = FactoryInjector.GetInterfaceTypeIndex (QualType.plain I) :=
    FactoryInjector.GetInterfaceTypeIndex_eq _ _ (hF.trans hIi.symm)
  refine ⟨?_, ?_, ?_⟩
  · intro e
    rw [FactoryInjector.OverwriteFactory_outcome]
    cases env.construct F2.base.name rrArgs <;> simp
  · rw [FactoryInjector.OverwriteFactory_outcome]
    cases env.construct F2.base.name rrArgs <;> simp
  · intro members hc
    have hget : FactoryInjector.GetFactory env
        (FactoryInjector.OverwriteFactory env self F2 rrArgs).1 (QualType.plain I)
        = Outcome.returns ⟨QualType.mutRef I.name, ⟨F2.base.name, members⟩⟩ := by
      rw [FactoryInjector.OverwriteFactory_ok env self F2 rrArgs members hc]
      rw [FactoryInjector.GetFactory_present env _ (QualType.plain I) F2.base.name
        ⟨F2.base.name, members⟩ (by rw [← hidx]; exact tInstanceCont.find_store_same _ _ _)]
      rw [traits_details.get_interface_const_ref, hIi, traits_details.add_const_ref_plain]
    refine ⟨?_, hget, ?_⟩
    · rw [FactoryInjector.OverwriteFactory_ok env self F2 rrArgs members hc]
    · intro previous _ hdyn heq
      rw [hget] at heq
      injection heq with heq
      rw [← heq] at hdyn
      exact hdyn rfl

/-- C2 at the second unit test: `OverwriteFactory<DummyClass2Factory>()` on an
injector that holds a `DummyClass1Factory`. -/
theorem C2_overwrite_replaces_instance_witness :
    FactoryInjector.GetFactory ut.env
        (FactoryInjector.OverwriteFactory ut.env
          (FactoryInjector.OverwriteFactory ut.env FactoryInjector.new
            (QualType.plain ut.DummyClass1Factory) []).1
          (QualType.plain ut.DummyClass2Factory) []).1
        (QualType.plain ut.IDummyClassFactory)
      = Outcome.returns ⟨QualType.mutRef "IDummyClassFactory", ⟨"DummyClass2Factory", []⟩⟩ :=
  ((C2_overwrite_replaces_instance ut.env
      (FactoryInjector.OverwriteFactory ut.env FactoryInjector.new
        (QualType.plain ut.DummyClass1Factory) []).1
      (QualType.plain ut.DummyClass2Factory) ut.IDummyClassFactory [] (by decide)
      (by decide)).2.2 [] rfl).2.1

/-- C3: `RegisterFactory<F>(args)` ends in a `FactoryAlreadyRegisteredEx` of the
registry exactly when the container has an element under the interface index of
`F`; so it does after any successful `OverwriteFactory<G>` for a `G` of the same
interface, whatever class `G` is, and it never does on an empty slot. -/
theorem C3_register_fails_iff_occupied (env : Env) (self : FactoryInjector)
    (F : QualType ClassDecl) (rrArgs : List Int) :
    ((∃ e, (FactoryInjector.RegisterFactory env self F rrArgs).2 = Outcome.throws e ∧
          e.kind = ExKind.FactoryAlreadyRegisteredEx)
      ↔ tInstanceCont.find self.mInstanceCont (FactoryInjector.GetInterfaceTypeIndex F) ≠ none) ∧
    (∀ (G : QualType ClassDecl) (gArgs : List Int),
      traits_details.get_interface G = traits_details.get_interface F →
      (FactoryInjector.OverwriteFactory env self G gArgs).2 = Outcome.returns () →
      ∃ e, (FactoryInjector.RegisterFactory env
              (FactoryInjector.OverwriteFactory env self G gArgs).1 F rrArgs).2
            = Outcome.throws e ∧ e.kind = ExKind.FactoryAlreadyRegisteredEx) := by
  constructor
  · constructor
    · rintro ⟨e, he, _⟩ habs
      rw [FactoryInjector.RegisterFactory_absent env self F rrArgs habs,
        FactoryInjector.OverwriteFactory_outcome] at he
      cases hc : env.construct F.base.name rrArgs <;> simp [hc] at he
    · intro h
      rw [FactoryInjector.RegisterFactory_present env self F rrArgs h]
      exact ⟨_, rfl, rfl⟩
  · intro G gArgs hG hret
    have hocc := FactoryInjector.OverwriteFactory_find_same env self G gArgs hret
    rw [FactoryInjector.GetInterfaceTypeIndex_eq G F hG] at hocc
    rw [FactoryInjector.RegisterFactory_present env _ F rrArgs hocc]
    exact ⟨_, rfl, rfl⟩

/-- C4: when `RegisterFactory<F>(args)` ends in `FactoryAlreadyRegisteredEx`, the
injector it leaves is the injector it found: the slot of `F` is occupied by the
same holder as before and `GetFactory<T>()` has the same outcome for every `T`. -/
theorem C4_failed_register_leaves_registry (env : Env) (self : FactoryInjector)
    (F : QualType ClassDecl) (rrArgs : List Int) (e : Exception)
    (hthrow : (FactoryInjector.RegisterFactory env self F rrArgs).2 = Outcome.throws e)
    (hkind : e.kind = ExKind.FactoryAlreadyRegisteredEx) :
    (FactoryInjector.RegisterFactory env self F rrArgs).1 = self ∧
    tInstanceCont.find self.mInstanceCont (FactoryInjector.GetInterfaceTypeIndex F) ≠ none ∧
    tInstanceCont.find (FactoryInjector.RegisterFactory env self F rrArgs).1.mInstanceCont
        (FactoryInjector.GetInterfaceTypeIndex F)
      = tInstanceCont.find self.mInstanceCont (FactoryInjector.GetInterfaceTypeIndex F) ∧
    ∀ T, FactoryInjector.GetFactory env (FactoryInjector.RegisterFactory env self F rrArgs).1 T
      = FactoryInjector.GetFactory env self T := by
  have hocc : tInstanceCont.find self.mInstanceCont (FactoryInjector.GetInterfaceTypeIndex F)
      ≠ none := ((FactoryInjector.RegisterFactory_throws_present env self F rrArgs) ⟨e, hthrow, hkind⟩)
  have hself : (FactoryInjector.RegisterFactory env self F rrArgs).1 = self := by
    rw [FactoryInjector.RegisterFactory_present env self F rrArgs hocc]
  refine ⟨hself, hocc, ?_, ?_⟩
  · rw [hself]
  · intro T
    rw [hself]

/-- C4 at the third unit test: the second `RegisterFactory<DummyClass1Factory>()`
throws and `GetFactory<IDummyClassFactory>()` still returns the first object. -/
theorem C4_failed_register_leaves_registry_witness :
    (FactoryInjector.RegisterFactory ut.env
        (FactoryInjector.RegisterFactory ut.env FactoryInjector.new
          (QualType.plain ut.DummyClass1Factory) []).1
        (QualType.plain ut.DummyClass2Factory) []).2
      = Outcome.throws (FactoryAlreadyRegisteredEx "18DummyClass2Factory") ∧
    FactoryInjector.GetFactory ut.env
        (FactoryInjector.RegisterFactory ut.env
          (FactoryInjector.RegisterFactory ut.env FactoryInjector.new
            (QualType.plain ut.DummyClass1Factory) []).1
          (QualType.plain ut.DummyClass2Factory) []).1
        (QualType.plain ut.IDummyClassFactory)
      = Outcome.returns ⟨QualType.mutRef "IDummyClassFactory", ⟨"DummyClass1Factory", []⟩⟩ :=
  ⟨by decide,
    ((C4_failed_register_leaves_registry ut.env
      (FactoryInjector.RegisterFactory ut.env FactoryInjector.new
        (QualType.plain ut.DummyClass1Factory) []).1
      (QualType.plain ut.DummyClass2Factory) []
      (FactoryAlreadyRegisteredEx "18DummyClass2Factory") (by decide) (by decide)).2.2.2
      (QualType.plain ut.IDummyClassFactory)).trans (by decide)⟩

/-- C5: `GetFactory<T>()` ends in a `FactoryNotRegisteredEx` of the registry
exactly when the container has no element under the interface index of `T`.
It does so for every `T` on a new injector; it does so for `J` after any
sequence of calls none of which names a factory of the interface of `J`; and
once an `OverwriteFactory` or `RegisterFactory` for the interface of `T` has
returned, it never does again, whatever calls follow. -/
theorem C5_get_fails_iff_absent (env : Env) :
    (∀ (self : FactoryInjector) (T : QualType ClassDecl),
      (∃ e, FactoryInjector.GetFactory env self T = Outcome.throws e ∧
          e.kind = ExKind.FactoryNotRegisteredEx)
        ↔ tInstanceCont.find self.mInstanceCont (FactoryInjector.GetInterfaceTypeIndex T)
            = none) ∧
    (∀ T : QualType ClassDecl,
      ∃ e, FactoryInjector.GetFactory env FactoryInjector.new T = Outcome.throws e ∧
        e.kind = ExKind.FactoryNotRegisteredEx) ∧
    (∀ (calls : List Call) (J : QualType ClassDecl),
      (∀ c ∈ calls, FactoryInjector.GetInterfaceTypeIndex c.TFactory
          ≠ FactoryInjector.GetInterfaceTypeIndex J) →
      ∃ e, FactoryInjector.GetFactory env (FactoryInjector.run env FactoryInjector.new calls) J
          = Outcome.throws e ∧ e.kind = ExKind.FactoryNotRegisteredEx) ∧
    (∀ (self : FactoryInjector) (F T : QualType ClassDecl) (rrArgs : List Int)
        (calls : List Call) (e : Exception),
      FactoryInjector.GetInterfaceTypeIndex T = FactoryInjector.GetInterfaceTypeIndex F →
      ((FactoryInjector.OverwriteFactory env self F rrArgs).2 = Outcome.returns () →
        FactoryInjector.GetFactory env
          (FactoryInjector.run env (FactoryInjector.OverwriteFactory env self F rrArgs).1 calls) T
          ≠ Outcome.throws e) ∧
      ((FactoryInjector.RegisterFactory env self F rrArgs).2 = Outcome.returns () →
        FactoryInjector.GetFactory env
          (FactoryInjector.run env (FactoryInjector.RegisterFactory env self F rrArgs).1 calls) T
          ≠ Outcome.throws e)) := by
  have hiff : ∀ (self : FactoryInjector) (T : QualType ClassDecl),
      (∃ e, FactoryInjector.GetFactory env self T = Outcome.throws e ∧
          e.kind = ExKind.FactoryNotRegisteredEx)
        ↔ tInstanceCont.find self.mInstanceCont (FactoryInjector.GetInterfaceTypeIndex T)
            = none := by
    intro self T
    constructor
    · rintro ⟨e, he, _⟩
      by_contra hocc
      exact FactoryInjector.GetFactory_not_throws env self T hocc e he
    · intro habs
      exact ⟨_, FactoryInjector.GetFactory_absent env self T habs, rfl⟩
  refine ⟨hiff, ?_, ?_, ?_⟩
  · intro T
    exact (hiff FactoryInjector.new T).2 rfl
  · intro calls J hother
    apply (hiff _ J).2
    rw [FactoryInjector.run_find_other env calls FactoryInjector.new _ hother]
    rfl
  · intro self F T rrArgs calls e hidx
    constructor
    · intro hret
      apply FactoryInjector.GetFactory_not_throws
      apply FactoryInjector.run_find_kept
      rw [hidx]
      exact FactoryInjector.OverwriteFactory_find_same env self F rrArgs hret
    · intro hret
      apply FactoryInjector.GetFactory_not_throws
      apply FactoryInjector.run_find_kept
      rw [hidx]
      by_cases habs : tInstanceCont.find self.mInstanceCont
          (FactoryInjector.GetInterfaceTypeIndex F) = none
      · rw [FactoryInjector.RegisterFactory_absent env self F rrArgs habs] at hret ⊢
        exact FactoryInjector.OverwriteFactory_find_same env self F rrArgs hret
      · exact FactoryInjector.RegisterFactory_find_kept env self F rrArgs _ habs

/-- C6: `CreateObject<T>(args)` is `GetFactory<T>().Create(args)`: it ends in the
same exception of the registry exactly when `GetFactory<T>()` does; when the
slot holds an object it ends as the `Create` of that object's dynamic type ends
on `args`; and two type arguments with the same interface give the same product. -/
theorem C6_create_object_is_get_then_create (env : Env) (self : FactoryInjector)
    (T : QualType ClassDecl) (rrArgs : List Int) :
    FactoryInjector.CreateObject env self T rrArgs
      = FactoryInjector.GetFactoryThenCreate env self T rrArgs ∧
    (∀ e, FactoryInjector.CreateObject env self T rrArgs = Outcome.throws e
        ↔ FactoryInjector.GetFactory env self T = Outcome.throws e) ∧
    (∀ (TInstance : String) (obj : Object),
      tInstanceCont.find self.mInstanceCont (FactoryInjector.GetInterfaceTypeIndex T)
          = some (some ⟨TInstance, some obj⟩) →
      FactoryInjector.CreateObject env self T rrArgs
        = match env.Create obj.dynType obj.members rrArgs with
          | Except.ok product => Outcome.returns product
          | Except.error what => Outcome.propagates what) ∧
    (∀ (U : QualType ClassDecl) (product : Object),
      traits_details.get_interface U = traits_details.get_interface T →
      (FactoryInjector.CreateObject env self U rrArgs = Outcome.returns product
        ↔ FactoryInjector.CreateObject env self T rrArgs = Outcome.returns product)) := by
  refine ⟨?_, ?_, ?_, ?_⟩
  · unfold FactoryInjector.CreateObject FactoryInjector.GetFactoryThenCreate Outcome.andThen
    cases FactoryInjector.GetFactory env self T <;> rfl
  · intro e
    unfold FactoryInjector.CreateObject
    cases hg : FactoryInjector.GetFactory env self T with
    | returns factory =>
      simp only [Ref.Create]
      cases env.Create factory.target.dynType factory.target.members rrArgs <;> simp
    | throws e2 => simp
    | propagates what => simp
    | undefined => simp
  · intro TInstance obj hfind
    unfold FactoryInjector.CreateObject
    rw [FactoryInjector.GetFactory_present env self T TInstance obj hfind]
    rfl
  · intro U product hU
    have hidx := FactoryInjector.GetInterfaceTypeIndex_eq U T hU
    have hget : ∀ factory, FactoryInjector.GetFactory env self U = Outcome.returns factory
        ↔ FactoryInjector.GetFactory env self T = Outcome.returns factory := by
      intro factory
      unfold FactoryInjector.GetFactory FactoryInjector.FindFactory
      simp only [traits_details.get_interface_const_ref, hU, hidx]
      cases tInstanceCont.find self.mInstanceCont (FactoryInjector.GetInterfaceTypeIndex T) with
      | none => simp
      | some second => rfl
    unfold FactoryInjector.CreateObject
    cases hgU : FactoryInjector.GetFactory env self U with
    | returns factory =>
      rw [(hget factory).1 hgU]
    | throws e2 =>
      cases hgT : FactoryInjector.GetFactory env self T with
      | returns factory => rw [(hget factory).2 hgT] at hgU; simp at hgU
      | throws e3 => simp
      | propagates what => simp
      | undefined => simp
    | propagates what =>
      cases hgT : FactoryInjector.GetFactory env self T with
      | returns factory => rw [(hget factory).2 hgT] at hgU; simp at hgU
      | throws e3 => simp
      | propagates what => simp
      | undefined => simp
    | undefined =>
      cases hgT : FactoryInjector.GetFactory env self T with
      | returns factory => rw [(hget factory).2 hgT] at hgU; simp at hgU
      | throws e3 => simp
      | propagates what => simp
      | undefined => simp

/-! ## Failures -/

/-- What the order of evaluation decides. A constructor that throws, in a
build that would evaluate the left operand of
`mInstanceCont[type_idx] = MakeUniqueAnyInstance<tFactory>(...)` first (allowed
before C++17), on a new injector: `OverwriteFactory<ThrowingFactory>()` and
`RegisterFactory<ThrowingFactory>()` pass the exception on and leave a null
pointer under the index of `IDummyClassFactory`; afterwards
`RegisterFactory<DummyClass1Factory>()` throws `FactoryAlreadyRegisteredEx` and
`GetFactory<IDummyClassFactory>()` calls `GetPtr()` through the null pointer.
The same calls in a build that evaluates the right operand first leave the
injector empty. -/
theorem FactoryInjector.OverwriteFactory_lhsFirst_null_slot :
    FactoryInjector.OverwriteFactory ut.envLhsFirst FactoryInjector.new
        (QualType.plain ut.ThrowingFactory) []
      = (⟨[(⟨⟨"IDummyClassFactory"⟩⟩, none)]⟩, Outcome.propagates "ctor") ∧
    FactoryInjector.RegisterFactory ut.envLhsFirst FactoryInjector.new
        (QualType.plain ut.ThrowingFactory) []
      = (⟨[(⟨⟨"IDummyClassFactory"⟩⟩, none)]⟩, Outcome.propagates "ctor") ∧
    (FactoryInjector.OverwriteFactory ut.envLhsFirst FactoryInjector.new
        (QualType.plain ut.ThrowingFactory) []).1 ≠ FactoryInjector.new ∧
    (FactoryInjector.RegisterFactory ut.envLhsFirst
        (FactoryInjector.OverwriteFactory ut.envLhsFirst FactoryInjector.new
          (QualType.plain ut.ThrowingFactory) []).1
        (QualType.plain ut.DummyClass1Factory) []).2
      = Outcome.throws (FactoryAlreadyRegisteredEx "18DummyClass1Factory") ∧
    FactoryInjector.GetFactory ut.envLhsFirst
        (FactoryInjector.OverwriteFactory ut.envLhsFirst FactoryInjector.new
          (QualType.plain ut.ThrowingFactory) []).1
        (QualType.plain ut.IDummyClassFactory)
      = Outcome.undefined ∧
    FactoryInjector.OverwriteFactory ut.env FactoryInjector.new
        (QualType.plain ut.ThrowingFactory) []
      = (FactoryInjector.new, Outcome.propagates "ctor") := by
  refine ⟨by decide, by decide, by decide, by decide, by decide, by decide⟩

/-- C8, as stated, fails: with a `DummyClass1Factory` registered,
`RegisterFactory<DummyClass1Factory>()` throws a `FactoryAlreadyRegisteredEx`
built from the name of `DummyClass1Factory`, and on a new injector
`GetFactory<DummyClass1Factory>()` throws a `FactoryNotRegisteredEx` built from
the same name; neither is the exception built from the name of the interface
`IDummyClassFactory`. -/
theorem C8_counterexample_exception_names_requested_type :
    (FactoryInjector.RegisterFactory ut.env
        (FactoryInjector.RegisterFactory ut.env FactoryInjector.new
          (QualType.plain ut.DummyClass1Factory) []).1
        (QualType.plain ut.DummyClass1Factory) []).2
      = Outcome.throws (FactoryAlreadyRegisteredEx "18DummyClass1Factory") ∧
    FactoryInjector.GetFactory ut.env FactoryInjector.new (QualType.plain ut.DummyClass1Factory)
      = Outcome.throws (FactoryNotRegisteredEx "18DummyClass1Factory") ∧
    type_info.name ut.env
        (typeid (traits_details.get_interface (QualType.plain ut.DummyClass1Factory)))
      = "18IDummyClassFactory" ∧
    FactoryAlreadyRegisteredEx "18DummyClass1Factory"
      ≠ FactoryAlreadyRegisteredEx "18IDummyClassFactory" ∧
    FactoryNotRegisteredEx "18DummyClass1Factory"
      ≠ FactoryNotRegisteredEx "18IDummyClassFactory" := by
  refine ⟨by decide, by decide, by decide, by decide, by decide⟩

/-- C8, amended: both exceptions are built from `typeid(TFactory).name()`, the
name of the class the caller wrote as type argument, reference and cv-qualifier
dropped. `RegisterFactory<F>` on an occupied slot throws
`FactoryAlreadyRegisteredEx` of that name, `GetFactory<F>` and `CreateObject<F>`
on an empty slot throw `FactoryNotRegisteredEx` of that name; the name is the
name of the interface when `F` is the interface itself. -/
theorem C8_exceptions_carry_requested_type_name (env : Env) (self : FactoryInjector)
    (F : QualType ClassDecl) (rrArgs : List Int) :
    (tInstanceCont.find self.mInstanceCont (FactoryInjector.GetInterfaceTypeIndex F) ≠ none →
      (FactoryInjector.RegisterFactory env self F rrArgs).2
        = Outcome.throws (FactoryAlreadyRegisteredEx (env.typeName F.base.name))) ∧
    (tInstanceCont.find self.mInstanceCont (FactoryInjector.GetInterfaceTypeIndex F) = none →
      FactoryInjector.GetFactory env self F
        = Outcome.throws (FactoryNotRegisteredEx (env.typeName F.base.name)) ∧
      FactoryInjector.CreateObject env self F rrArgs
        = Outcome.throws (FactoryNotRegisteredEx (env.typeName F.base.name))) ∧
    (F.base.tInterface = QualType.plain F.base.name →
      env.typeName F.base.name
        = type_info.name env (typeid (traits_details.get_interface F))) := by
  refine ⟨?_, ?_, ?_⟩
  · intro hocc
    rw [FactoryInjector.RegisterFactory_present env self F rrArgs hocc]
  · intro habs
    have hget := FactoryInjector.GetFactory_absent env self F habs
    refine ⟨hget, ?_⟩
    unfold FactoryInjector.CreateObject
    rw [hget]
  · intro hself
    rw [traits_details.get_interface_eq, hself]
    rfl

/-- C8 amended, at the third unit test (the slot of `IDummyClassFactory` holds a
`DummyClass1Factory` and `DummyClass2Factory` is registered) and on the new
injector for `IOtherClassFactory`. -/
theorem C8_exceptions_carry_requested_type_name_witness :
    (FactoryInjector.RegisterFactory ut.env
        (FactoryInjector.RegisterFactory ut.env FactoryInjector.new
          (QualType.plain ut.DummyClass1Factory) []).1
        (QualType.constRef ut.DummyClass2Factory) []).2
      = Outcome.throws (FactoryAlreadyRegisteredEx "18DummyClass2Factory") ∧
    FactoryInjector.GetFactory ut.env FactoryInjector.new (QualType.plain ut.IOtherClassFactory)
      = Outcome.throws (FactoryNotRegisteredEx "18IOtherClassFactory") :=
  ⟨(C8_exceptions_carry_requested_type_name ut.env
      (FactoryInjector.RegisterFactory ut.env FactoryInjector.new
        (QualType.plain ut.DummyClass1Factory) []).1
      (QualType.constRef ut.DummyClass2Factory) []).1 (by decide),
    ((C8_exceptions_carry_requested_type_name ut.env FactoryInjector.new
      (QualType.plain ut.IOtherClassFactory) []).2.1 (by decide)).1⟩

/-! ## Types -/

/-- C9: the declared return type of `GetFactory<DummyClass1Factory>` and of
`GetFactory<IDummyClassFactory>` is `IDummyClassFactory&`, not
`const IDummyClassFactory&`: `add_const_ref` applies `std::add_const` to a
reference type, which adds nothing. For every `T` the type `add_const_ref<T>::type`
is const-qualified only if `T` already is, and the reference `GetFactory`
returns in the first unit test has the non-const type. -/
theorem C9_get_factory_returns_non_const_reference :
    traits_details.get_interface_const_ref (QualType.plain ut.DummyClass1Factory)
      = QualType.mutRef "IDummyClassFactory" ∧
    traits_details.get_interface_const_ref (QualType.plain ut.IDummyClassFactory)
      = QualType.mutRef "IDummyClassFactory" ∧
    traits_details.add_const_ref (QualType.plain "IDummyClassFactory")
      ≠ QualType.constRef "IDummyClassFactory" ∧
    (∀ (α : Type) (T : QualType α),
      (traits_details.add_const_ref T).isConst = T.isConst ∧
      (traits_details.add_const_ref T).ref = RefKind.lvalue) ∧
    FactoryInjector.GetFactory ut.env
        (FactoryInjector.RegisterFactory ut.env FactoryInjector.new
          (QualType.plain ut.DummyClass1Factory) []).1
        (QualType.plain ut.DummyClass1Factory)
      = Outcome.returns ⟨⟨"IDummyClassFactory", false, false, RefKind.lvalue⟩,
          ⟨"DummyClass1Factory", []⟩⟩ := by
  refine ⟨by decide, by decide, by decide, ?_, by decide⟩
  intro α T
  rw [traits_details.add_const_ref_eq]
  exact ⟨rfl, rfl⟩

/-- C10, as stated, fails: `ShadowFactory` derives from `IDummyClassFactory`,
which is declared as `FactoryTraits<IDummyClassFactory, IDummyClass>`, and
declares `using tInterface = IOtherClassFactory;`; member lookup finds that
declaration first, so `GetInterfaceTypeIndex<ShadowFactory>()` is the index of
`IOtherClassFactory` and not the index of `IDummyClassFactory`. -/
theorem C10_counterexample_redeclared_typedef :
    ClassDecl.derivesFrom ut.IDummyClassFactory ut.ShadowFactory ∧
    ut.IDummyClassFactory
      = ClassDecl.traits "IDummyClassFactory" (QualType.plain "IDummyClassFactory")
          (QualType.plain "IDummyClass") ∧
    FactoryInjector.GetInterfaceTypeIndex (QualType.plain ut.ShadowFactory)
      = FactoryInjector.GetInterfaceTypeIndex (QualType.plain ut.IOtherClassFactory) ∧
    FactoryInjector.GetInterfaceTypeIndex (QualType.plain ut.ShadowFactory)
      ≠ FactoryInjector.GetInterfaceTypeIndex (QualType.plain ut.IDummyClassFactory) ∧
    FactoryInjector.GetInterfaceTypeIndex (QualType.plain ut.ShadowFactory)
      ≠ ⟨typeid (QualType.plain "IDummyClassFactory")⟩ := by
  refine ⟨by decide, by decide, by decide, by decide, by decide⟩

/-- C10, amended: for an interface `I` declared as
`class I : public FactoryTraits<I, O>` and types `F1`, `F2` (with any qualifier
or reference) of classes that derive from `I` through classes none of which
declares a `tInterface` of its own, `GetInterfaceTypeIndex<F1>()`,
`GetInterfaceTypeIndex<F2>()` and `GetInterfaceTypeIndex<I>()` are all the type
index of `I`; and an interface of another name declared the same way has
another index. -/
theorem C10_interface_index_shared (n : String) (O : QualType String)
    (F1 F2 : QualType ClassDecl)
    (h1 : ClassDecl.inheritsTypedefFrom (ClassDecl.traits n (QualType.plain n) O) F1.base)
    (h2 : ClassDecl.inheritsTypedefFrom (ClassDecl.traits n (QualType.plain n) O) F2.base) :
    ClassDecl.derivesFrom (ClassDecl.traits n (QualType.plain n) O) F1.base ∧
    ClassDecl.derivesFrom (ClassDecl.traits n (QualType.plain n) O) F2.base ∧
    FactoryInjector.GetInterfaceTypeIndex F1 = ⟨typeid (QualType.plain n)⟩ ∧
    FactoryInjector.GetInterfaceTypeIndex F2 = ⟨typeid (QualType.plain n)⟩ ∧
    FactoryInjector.GetInterfaceTypeIndex
        (QualType.plain (ClassDecl.traits n (QualType.plain n) O))
      = ⟨typeid (QualType.plain n)⟩ ∧
    ∀ (m : String) (P : QualType String), m ≠ n →
      FactoryInjector.GetInterfaceTypeIndex
          (QualType.plain (ClassDecl.traits m (QualType.plain m) P))
        ≠ FactoryInjector.GetInterfaceTypeIndex
          (QualType.plain (ClassDecl.traits n (QualType.plain n) O)) := by
  have hself : ∀ (k : String) (Q : QualType String),
      (ClassDecl.traits k (QualType.plain k) Q).tInterface = QualType.plain k := by
    intro k Q
    simp [ClassDecl.tInterface, FactoryTraits, traits_details.remove_const_ref, std.remove_cv,
      std.remove_reference, QualType.plain]
  have hidx : ∀ F : QualType ClassDecl,
      ClassDecl.inheritsTypedefFrom (ClassDecl.traits n (QualType.plain n) O) F.base →
      FactoryInjector.GetInterfaceTypeIndex F = ⟨typeid (QualType.plain n)⟩ := by
    intro F hF
    simp only [FactoryInjector.GetInterfaceTypeIndex]
    rw [traits_details.get_interface_eq, ClassDecl.tInterface_of_inheritsTypedefFrom _ _ hF,
      hself]
  refine ⟨ClassDecl.derivesFrom_of_inheritsTypedefFrom _ _ h1,
    ClassDecl.derivesFrom_of_inheritsTypedefFrom _ _ h2, hidx F1 h1, hidx F2 h2, ?_, ?_⟩
  · apply hidx
    simp [ClassDecl.inheritsTypedefFrom, QualType.plain]
  · intro m P hmn heq
    simp only [FactoryInjector.GetInterfaceTypeIndex] at heq
    rw [traits_details.get_interface_eq, traits_details.get_interface_eq] at heq
    simp only [QualType.plain] at heq hself
    rw [hself, hself] at heq
    simp [typeid] at heq
    exact hmn heq

/-- C10 amended, at the classes of the unit tests: `DummyClass1Factory`, named
as `const DummyClass2Factory&` too, and `IDummyClassFactory` share one index,
which is not that of `IOtherClassFactory`. -/
theorem C10_interface_index_shared_witness :
    FactoryInjector.GetInterfaceTypeIndex (QualType.plain ut.DummyClass1Factory)
      = ⟨⟨"IDummyClassFactory"⟩⟩ ∧
    FactoryInjector.GetInterfaceTypeIndex (QualType.constRef ut.DummyClass2Factory)
      = ⟨⟨"IDummyClassFactory"⟩⟩ ∧
    FactoryInjector.GetInterfaceTypeIndex (QualType.plain ut.IDummyClassFactory)
      = ⟨⟨"IDummyClassFactory"⟩⟩ ∧
    FactoryInjector.GetInterfaceTypeIndex (QualType.plain ut.IOtherClassFactory)
      ≠ FactoryInjector.GetInterfaceTypeIndex (QualType.plain ut.IDummyClassFactory) :=
  have h := C10_interface_index_shared "IDummyClassFactory" (QualType.plain "IDummyClass")
    (QualType.plain ut.DummyClass1Factory) (QualType.constRef ut.DummyClass2Factory)
    (by decide) (by decide)
  ⟨h.2.2.1, h.2.2.2.1, h.2.2.2.2.1,
    h.2.2.2.2.2 "IOtherClassFactory" (QualType.plain "IDummyClass") (by decide)⟩

/-! ## Lookup by either name, and the two ways to register -/

/-- The typedef `tInterface` is always an unqualified class type:
`FactoryTraits` strips reference and cv-qualifiers from its argument. -/
theorem ClassDecl.tInterface_plain (C : ClassDecl) :
    C.tInterface = QualType.plain C.tInterface.base := by
  induction C with
  | traits name TInterface TObject =>
    simp [ClassDecl.tInterface, FactoryTraits, traits_details.remove_const_ref, std.remove_cv,
      std.remove_reference, QualType.plain]
  | derived name base ih =>
    simp only [ClassDecl.tInterface]
    exact ih
  | redeclares name tInterface base ih => rfl

/-- Two type arguments with the same interface index have the same interface type. -/
theorem FactoryInjector.get_interface_of_index_eq (T U : QualType ClassDecl)
    (h : FactoryInjector.GetInterfaceTypeIndex T = FactoryInjector.GetInterfaceTypeIndex U) :
    traits_details.get_interface T = traits_details.get_interface U := by
  simp only [FactoryInjector.GetInterfaceTypeIndex, typeid, type_index.mk.injEq,
    type_info.mk.injEq] at h
  rw [traits_details.get_interface_eq, traits_details.get_interface_eq] at h ⊢
  rw [ClassDecl.tInterface_plain T.base, ClassDecl.tInterface_plain U.base, h]

/-- C11: when `T1` and `T2` resolve to the same interface index, `GetFactory<T1>()`
and `GetFactory<T2>()` end alike in every registry state: one returns a
reference exactly when the other returns the same reference, one throws
`FactoryNotRegisteredEx` exactly when the other does, and one goes through a
null pointer exactly when the other does. What is returned is the object the
slot holds, whatever class the caller named and whatever class is stored. -/
theorem C11_lookup_by_either_name (env : Env) (self : FactoryInjector)
    (T1 T2 : QualType ClassDecl)
    (hidx : FactoryInjector.GetInterfaceTypeIndex T1 = FactoryInjector.GetInterfaceTypeIndex T2) :
    (∀ r, FactoryInjector.GetFactory env self T1 = Outcome.returns r
        ↔ FactoryInjector.GetFactory env self T2 = Outcome.returns r) ∧
    ((∃ e, FactoryInjector.GetFactory env self T1 = Outcome.throws e ∧
          e.kind = ExKind.FactoryNotRegisteredEx)
      ↔ (∃ e, FactoryInjector.GetFactory env self T2 = Outcome.throws e ∧
          e.kind = ExKind.FactoryNotRegisteredEx)) ∧
    (FactoryInjector.GetFactory env self T1 = Outcome.undefined
      ↔ FactoryInjector.GetFactory env self T2 = Outcome.undefined) ∧
    (∀ (TInstance : String) (obj : Object),
      tInstanceCont.find self.mInstanceCont (FactoryInjector.GetInterfaceTypeIndex T1)
          = some (some ⟨TInstance, some obj⟩) →
      ∃ r, r.target = obj ∧ FactoryInjector.GetFactory env self T1 = Outcome.returns r ∧
        FactoryInjector.GetFactory env self T2 = Outcome.returns r) := by
  have hint := FactoryInjector.get_interface_of_index_eq T1 T2 hidx
  have hty : traits_details.get_interface_const_ref T1
      = traits_details.get_interface_const_ref T2 := by
    simp only [traits_details.get_interface_const_ref, hint]
  refine ⟨?_, ?_, ?_, ?_⟩
  · intro r
    unfold FactoryInjector.GetFactory FactoryInjector.FindFactory
    simp only [hty, hidx]
    cases tInstanceCont.find self.mInstanceCont (FactoryInjector.GetInterfaceTypeIndex T2) with
    | none => simp
    | some second => rfl
  · unfold FactoryInjector.GetFactory FactoryInjector.FindFactory
    simp only [hty, hidx]
    cases tInstanceCont.find self.mInstanceCont (FactoryInjector.GetInterfaceTypeIndex T2) with
    | none =>
      constructor
      · intro _
        exact ⟨_, rfl, rfl⟩
      · intro _
        exact ⟨_, rfl, rfl⟩
    | some second => rfl
  · unfold FactoryInjector.GetFactory FactoryInjector.FindFactory
    simp only [hty, hidx]
    cases tInstanceCont.find self.mInstanceCont (FactoryInjector.GetInterfaceTypeIndex T2) with
    | none => simp
    | some second => rfl
  · intro TInstance obj hfind
    refine ⟨⟨traits_details.get_interface_const_ref T1, obj⟩, rfl, ?_, ?_⟩
    · exact FactoryInjector.GetFactory_present env self T1 TInstance obj hfind
    · rw [hty]
      exact FactoryInjector.GetFactory_present env self T2 TInstance obj
        (by rw [← hidx]; exact hfind)

/-- C11 at the second unit test: with a `DummyClass1Factory` stored,
`GetFactory<DummyClass2Factory>()` returns that `DummyClass1Factory` object,
as `GetFactory<IDummyClassFactory>()` does. -/
theorem C11_lookup_by_either_name_witness :
    FactoryInjector.GetFactory ut.env
        (FactoryInjector.OverwriteFactory ut.env FactoryInjector.new
          (QualType.plain ut.DummyClass1Factory) []).1
        (QualType.plain ut.DummyClass2Factory)
      = Outcome.returns ⟨QualType.mutRef "IDummyClassFactory", ⟨"DummyClass1Factory", []⟩⟩ ∧
    FactoryInjector.GetFactory ut.env
        (FactoryInjector.OverwriteFactory ut.env FactoryInjector.new
          (QualType.plain ut.DummyClass1Factory) []).1
        (QualType.plain ut.IDummyClassFactory)
      = Outcome.returns ⟨QualType.mutRef "IDummyClassFactory", ⟨"DummyClass1Factory", []⟩⟩ :=
  have h := C11_lookup_by_either_name ut.env
    (FactoryInjector.OverwriteFactory ut.env FactoryInjector.new
      (QualType.plain ut.DummyClass1Factory) []).1
    (QualType.plain ut.DummyClass2Factory) (QualType.plain ut.IDummyClassFactory) (by decide)
  ⟨(h.1 _).2 (by decide), (h.1 _).1 (by decide)⟩

/-- The outcome of `GetFactory<T>()` is decided by what `find` gives for the
interface index of `T`. -/
theorem FactoryInjector.GetFactory_congr (env : Env) (a b : FactoryInjector)
    (T : QualType ClassDecl)
    (h : tInstanceCont.find a.mInstanceCont (FactoryInjector.GetInterfaceTypeIndex T)
      = tInstanceCont.find b.mInstanceCont (FactoryInjector.GetInterfaceTypeIndex T)) :
    FactoryInjector.GetFactory env a T = FactoryInjector.GetFactory env b T := by
  unfold FactoryInjector.GetFactory FactoryInjector.FindFactory
  rw [h]

theorem FactoryInjector.CreateObject_congr (env : Env) (a b : FactoryInjector)
    (T : QualType ClassDecl) (rrArgs : List Int)
    (h : tInstanceCont.find a.mInstanceCont (FactoryInjector.GetInterfaceTypeIndex T)
      = tInstanceCont.find b.mInstanceCont (FactoryInjector.GetInterfaceTypeIndex T)) :
    FactoryInjector.CreateObject env a T rrArgs = FactoryInjector.CreateObject env b T rrArgs := by
  unfold FactoryInjector.CreateObject
  rw [FactoryInjector.GetFactory_congr env a b T h]

/-- C12: on an empty slot `RegisterFactory<F>(args)` is `OverwriteFactory<F>(args)`:
same registry left behind (the same container, so the same content under every
index), same outcome, and that outcome is not an exception of the registry. -/
theorem C12_register_on_empty_slot_is_overwrite (env : Env) (self : FactoryInjector)
    (F : QualType ClassDecl) (rrArgs : List Int)
    (hempty : tInstanceCont.find self.mInstanceCont (FactoryInjector.GetInterfaceTypeIndex F)
      = none) :
    FactoryInjector.RegisterFactory env self F rrArgs
      = FactoryInjector.OverwriteFactory env self F rrArgs ∧
    (∀ key, tInstanceCont.find
          (FactoryInjector.RegisterFactory env self F rrArgs).1.mInstanceCont key
        = tInstanceCont.find
          (FactoryInjector.OverwriteFactory env self F rrArgs).1.mInstanceCont key) ∧
    (∀ e, (FactoryInjector.RegisterFactory env self F rrArgs).2 ≠ Outcome.throws e) ∧
    (∀ e, (FactoryInjector.OverwriteFactory env self F rrArgs).2 ≠ Outcome.throws e) := by
  have heq := FactoryInjector.RegisterFactory_absent env self F rrArgs hempty
  have hno : ∀ e, (FactoryInjector.OverwriteFactory env self F rrArgs).2 ≠ Outcome.throws e := by
    intro e
    rw [FactoryInjector.OverwriteFactory_outcome]
    cases env.construct F.base.name rrArgs <;> simp
  refine ⟨heq, ?_, ?_, hno⟩
  · intro key
    rw [heq]
  · rw [heq]
    exact hno

/-- C12 at the example program: `RegisterFactory` on a new injector, where
`OverwriteFactory` "can also be used, it's the same". -/
theorem C12_register_on_empty_slot_is_overwrite_witness :
    FactoryInjector.RegisterFactory ut.env FactoryInjector.new
        (QualType.plain ut.DummyClass1Factory) []
      = FactoryInjector.OverwriteFactory ut.env FactoryInjector.new
        (QualType.plain ut.DummyClass1Factory) [] :=
  (C12_register_on_empty_slot_is_overwrite ut.env FactoryInjector.new
    (QualType.plain ut.DummyClass1Factory) [] (by decide)).1

/-- Assigning to an element what it holds changes nothing. -/
theorem tInstanceCont.assign_find_self (m : tInstanceCont) (k : type_index)
    (v : tAnyInstancePtr) (h : tInstanceCont.find m k = some v) :
    tInstanceCont.assign m k v = m := by
  induction m with
  | nil => rfl
  | cons e rest ih =>
    obtain ⟨k0, v0⟩ := e
    by_cases hk : k0 = k
    · simp only [tInstanceCont.find, hk, if_true, Option.some.injEq] at h
      simp [tInstanceCont.assign, hk, h]
    · simp only [tInstanceCont.find, hk, if_false] at h
      simp only [tInstanceCont.assign, hk, if_false, ih h]

/-- Writing to an object the values it has changes nothing. -/
theorem tInstanceCont.writeObject_same (m : tInstanceCont) (k : type_index)
    (TInstance : String) (obj : Object)
    (h : tInstanceCont.find m k = some (some ⟨TInstance, some obj⟩)) :
    tInstanceCont.writeObject m k obj = m := by
  induction m with
  | nil => rfl
  | cons e rest ih =>
    obtain ⟨k0, v0⟩ := e
    by_cases hk : k0 = k
    · simp only [tInstanceCont.find, hk, if_true, Option.some.injEq] at h
      simp [tInstanceCont.writeObject, hk, h]
    · simp only [tInstanceCont.find, hk, if_false] at h
      simp only [tInstanceCont.writeObject, hk, if_false, ih h]

/-- The body of `GetFactory` leaves the registry it found and ends as
`FactoryInjector.GetFactory` says. -/
theorem FactoryInjector.GetFactoryStep_eq (env : Env) (self : FactoryInjector)
    (T : QualType ClassDecl) :
    FactoryInjector.GetFactoryStep env self T = (self, FactoryInjector.GetFactory env self T) := by
  unfold FactoryInjector.GetFactoryStep FactoryInjector.GetFactory FactoryInjector.FindFactory
  cases hf : tInstanceCont.find self.mInstanceCont (FactoryInjector.GetInterfaceTypeIndex T) with
  | none => rfl
  | some second =>
    cases second with
    | none => rfl
    | some holder =>
      have hsame : (⟨tInstanceCont.assign self.mInstanceCont
          (FactoryInjector.GetInterfaceTypeIndex T) (some holder)⟩ : FactoryInjector) = self := by
        rw [tInstanceCont.assign_find_self _ _ _ hf]
      simp only [RealInstance.GetPtrStep, RealInstance.GetPtr, hsame]
      cases holder.mInstancePtr <;> rfl

/-- The body of `CreateObject` on a slot that holds an object: the data
members of that object are what `Create` left, and the outcome is that of
`FactoryInjector.CreateObject`. -/
theorem FactoryInjector.CreateObjectStep_present (env : Env) (self : FactoryInjector)
    (T : QualType ClassDecl) (rrArgs : List Int) (TInstance : String) (obj : Object)
    (h : tInstanceCont.find self.mInstanceCont (FactoryInjector.GetInterfaceTypeIndex T)
      = some (some ⟨TInstance, some obj⟩)) :
    FactoryInjector.CreateObjectStep env self T rrArgs
      = (⟨tInstanceCont.writeObject self.mInstanceCont (FactoryInjector.GetInterfaceTypeIndex T)
            ⟨obj.dynType, env.CreateEffect obj.dynType obj.members rrArgs⟩⟩,
          FactoryInjector.CreateObject env self T rrArgs) := by
  unfold FactoryInjector.CreateObjectStep FactoryInjector.CreateObject
  rw [FactoryInjector.GetFactoryStep_eq,
    FactoryInjector.GetFactory_present env self T TInstance obj h]

/-- The body of `CreateObject` when `GetFactory` does not return: nothing is
written. -/
theorem FactoryInjector.CreateObjectStep_absent (env : Env) (self : FactoryInjector)
    (T : QualType ClassDecl) (rrArgs : List Int)
    (h : ∀ r, FactoryInjector.GetFactory env self T ≠ Outcome.returns r) :
    FactoryInjector.CreateObjectStep env self T rrArgs
      = (self, FactoryInjector.CreateObject env self T rrArgs) := by
  unfold FactoryInjector.CreateObjectStep FactoryInjector.CreateObject
  rw [FactoryInjector.GetFactoryStep_eq]
  cases hg : FactoryInjector.GetFactory env self T with
  | returns r => exact absurd hg (h r)
  | throws e => rfl
  | propagates what => rfl
  | undefined => rfl

/-- When `GetFactory` returns, the slot holds the object returned. -/
theorem FactoryInjector.GetFactory_returns_find (env : Env) (self : FactoryInjector)
    (T : QualType ClassDecl) (r : Ref)
    (h : FactoryInjector.GetFactory env self T = Outcome.returns r) :
    ∃ TInstance, tInstanceCont.find self.mInstanceCont (FactoryInjector.GetInterfaceTypeIndex T)
      = some (some ⟨TInstance, some r.target⟩) := by
  unfold FactoryInjector.GetFactory FactoryInjector.FindFactory at h
  cases hf : tInstanceCont.find self.mInstanceCont (FactoryInjector.GetInterfaceTypeIndex T) with
  | none => simp [hf] at h
  | some second =>
    cases second with
    | none => simp [hf] at h
    | some holder =>
      obtain ⟨TInstance, ptr⟩ := holder
      cases ptr with
      | none => simp [hf, RealInstance.GetPtr] at h
      | some obj =>
        simp only [hf, RealInstance.GetPtr, Outcome.returns.injEq] at h
        subst h
        exact ⟨TInstance, rfl⟩

/-- The body of `CreateObject` leaves the registry it found when `Create`
leaves the data members of its factory. -/
theorem FactoryInjector.CreateObjectStep_unchanged (env : Env) (self : FactoryInjector)
    (T : QualType ClassDecl) (rrArgs : List Int)
    (hconst : ∀ c members args, env.CreateEffect c members args = members) :
    (FactoryInjector.CreateObjectStep env self T rrArgs).1 = self := by
  by_cases hr : ∃ r, FactoryInjector.GetFactory env self T = Outcome.returns r
  · obtain ⟨r, hr⟩ := hr
    obtain ⟨TInstance, hf⟩ := FactoryInjector.GetFactory_returns_find env self T r hr
    rw [FactoryInjector.CreateObjectStep_present env self T rrArgs TInstance r.target hf, hconst]
    simp only
    rw [tInstanceCont.writeObject_same _ _ TInstance r.target hf]
  · rw [FactoryInjector.CreateObjectStep_absent env self T rrArgs
      (fun r h => hr ⟨r, h⟩)]



/-- C18: `OverwriteFactory<F>` and `RegisterFactory<F>` leave every other slot
alone: for `T` of another interface index the container gives the same element
and `GetFactory<T>()` ends the same way (same reference, or same exception)
after the call as before, whether the call returned or not. -/
theorem C18_write_touches_only_its_slot (env : Env) (self : FactoryInjector)
    (F T : QualType ClassDecl) (rrArgs : List Int)
    (hother : FactoryInjector.GetInterfaceTypeIndex T ≠ FactoryInjector.GetInterfaceTypeIndex F) :
    FactoryInjector.GetFactory env (FactoryInjector.OverwriteFactory env self F rrArgs).1 T
      = FactoryInjector.GetFactory env self T ∧
    FactoryInjector.GetFactory env (FactoryInjector.RegisterFactory env self F rrArgs).1 T
      = FactoryInjector.GetFactory env self T ∧
    tInstanceCont.find (FactoryInjector.OverwriteFactory env self F rrArgs).1.mInstanceCont
        (FactoryInjector.GetInterfaceTypeIndex T)
      = tInstanceCont.find self.mInstanceCont (FactoryInjector.GetInterfaceTypeIndex T) ∧
    tInstanceCont.find (FactoryInjector.RegisterFactory env self F rrArgs).1.mInstanceCont
        (FactoryInjector.GetInterfaceTypeIndex T)
      = tInstanceCont.find self.mInstanceCont (FactoryInjector.GetInterfaceTypeIndex T) := by
  have ho := FactoryInjector.OverwriteFactory_find_other env self F rrArgs _ (Ne.symm hother)
  have hr := FactoryInjector.RegisterFactory_find_other env self F rrArgs _ (Ne.symm hother)
  exact ⟨FactoryInjector.GetFactory_congr env _ _ T ho,
    FactoryInjector.GetFactory_congr env _ _ T hr, ho, hr⟩

/-- C18 at the fourth unit test: registering a `DummyClass1Factory` leaves
`GetFactory<IOtherClassFactory>()` throwing as on the new injector. -/
theorem C18_write_touches_only_its_slot_witness :
    FactoryInjector.GetFactory ut.env
        (FactoryInjector.RegisterFactory ut.env FactoryInjector.new
          (QualType.plain ut.DummyClass1Factory) []).1
        (QualType.plain ut.IOtherClassFactory)
      = FactoryInjector.GetFactory ut.env FactoryInjector.new
        (QualType.plain ut.IOtherClassFactory) :=
  (C18_write_touches_only_its_slot ut.env FactoryInjector.new
    (QualType.plain ut.DummyClass1Factory) (QualType.plain ut.IOtherClassFactory) []
    (by decide)).2.1

/-! ## Order of writes -/

theorem tInstanceCont.find_subscript_own (m : tInstanceCont) (k : type_index) :
    tInstanceCont.find (tInstanceCont.subscript m k) k
      = some ((tInstanceCont.find m k).getD none) := by
  unfold tInstanceCont.subscript
  cases h : tInstanceCont.find m k with
  | none => simp [tInstanceCont.find_append_absent m k none h]
  | some v => simp [h]

/-- What `OverwriteFactory<T>` leaves in the slot of `T` depends on the
registry only through what that slot held. -/
theorem FactoryInjector.OverwriteFactory_find_own_congr (env : Env) (a b : FactoryInjector)
    (T : QualType ClassDecl) (rrArgs : List Int)
    (h : tInstanceCont.find a.mInstanceCont (FactoryInjector.GetInterfaceTypeIndex T)
      = tInstanceCont.find b.mInstanceCont (FactoryInjector.GetInterfaceTypeIndex T)) :
    tInstanceCont.find (FactoryInjector.OverwriteFactory env a T rrArgs).1.mInstanceCont
        (FactoryInjector.GetInterfaceTypeIndex T)
      = tInstanceCont.find (FactoryInjector.OverwriteFactory env b T rrArgs).1.mInstanceCont
        (FactoryInjector.GetInterfaceTypeIndex T) := by
  cases hc : env.construct T.base.name rrArgs with
  | ok members =>
    rw [FactoryInjector.OverwriteFactory_ok env a T rrArgs members hc,
      FactoryInjector.OverwriteFactory_ok env b T rrArgs members hc]
    simp only [tInstanceCont.find_store_same]
  | error what =>
    rw [FactoryInjector.OverwriteFactory_error env a T rrArgs what hc,
      FactoryInjector.OverwriteFactory_error env b T rrArgs what hc]
    cases env.rhsFirst
    · simp only [Bool.false_eq_true, if_false, tInstanceCont.find_subscript_own, h]
    · simpa using h

/-- What `RegisterFactory<T>` leaves in the slot of `T` depends on the registry
only through what that slot held. -/
theorem FactoryInjector.RegisterFactory_find_own_congr (env : Env) (a b : FactoryInjector)
    (T : QualType ClassDecl) (rrArgs : List Int)
    (h : tInstanceCont.find a.mInstanceCont (FactoryInjector.GetInterfaceTypeIndex T)
      = tInstanceCont.find b.mInstanceCont (FactoryInjector.GetInterfaceTypeIndex T)) :
    tInstanceCont.find (FactoryInjector.RegisterFactory env a T rrArgs).1.mInstanceCont
        (FactoryInjector.GetInterfaceTypeIndex T)
      = tInstanceCont.find (FactoryInjector.RegisterFactory env b T rrArgs).1.mInstanceCont
        (FactoryInjector.GetInterfaceTypeIndex T) := by
  by_cases ha : tInstanceCont.find a.mInstanceCont (FactoryInjector.GetInterfaceTypeIndex T)
      = none
  · have hb := ha
    rw [h] at hb
    rw [FactoryInjector.RegisterFactory_absent env a T rrArgs ha,
      FactoryInjector.RegisterFactory_absent env b T rrArgs hb]
    exact FactoryInjector.OverwriteFactory_find_own_congr env a b T rrArgs h
  · have hb := ha
    rw [h] at hb
    rw [FactoryInjector.RegisterFactory_present env a T rrArgs ha,
      FactoryInjector.RegisterFactory_present env b T rrArgs hb]
    exact h

/-- Two steps that each write one slot, and write it from what it held,
commute slot by slot when the two slots differ. -/
theorem FactoryInjector.find_commute (f g : FactoryInjector → FactoryInjector)
    (kf kg : type_index) (hne : kf ≠ kg)
    (hf_other : ∀ s key, kf ≠ key →
      tInstanceCont.find (f s).mInstanceCont key = tInstanceCont.find s.mInstanceCont key)
    (hg_other : ∀ s key, kg ≠ key →
      tInstanceCont.find (g s).mInstanceCont key = tInstanceCont.find s.mInstanceCont key)
    (hf_own : ∀ a b, tInstanceCont.find a.mInstanceCont kf = tInstanceCont.find b.mInstanceCont kf →
      tInstanceCont.find (f a).mInstanceCont kf = tInstanceCont.find (f b).mInstanceCont kf)
    (hg_own : ∀ a b, tInstanceCont.find a.mInstanceCont kg = tInstanceCont.find b.mInstanceCont kg →
      tInstanceCont.find (g a).mInstanceCont kg = tInstanceCont.find (g b).mInstanceCont kg)
    (s : FactoryInjector) (key : type_index) :
    tInstanceCont.find (g (f s)).mInstanceCont key
      = tInstanceCont.find (f (g s)).mInstanceCont key := by
  by_cases h1 : kf = key
  · subst h1
    rw [hg_other (f s) kf (Ne.symm hne)]
    exact (hf_own (g s) s (hg_other s kf (Ne.symm hne))).symm
  · by_cases h2 : kg = key
    · subst h2
      rw [hf_other (g s) kg hne]
      exact hg_own (f s) s (hf_other s kg hne)
    · rw [hg_other (f s) key h2, hf_other s key h1, hf_other (g s) key h1, hg_other s key h2]

/-- C14: for `F` and `G` of different interface indices and any registry,
`OverwriteFactory<F>(a)` then `OverwriteFactory<G>(b)` leaves under every index
the element that `OverwriteFactory<G>(b)` then `OverwriteFactory<F>(a)` leaves,
so `GetFactory<T>()` ends the same way for every `T`; the same holds for
`RegisterFactory`, in particular when both slots are empty at the start. -/
theorem C14_order_of_writes_is_irrelevant (env : Env) (self : FactoryInjector)
    (F G : QualType ClassDecl) (a b : List Int)
    (hdiff : FactoryInjector.GetInterfaceTypeIndex F ≠ FactoryInjector.GetInterfaceTypeIndex G) :
    (∀ key, tInstanceCont.find
        (FactoryInjector.OverwriteFactory env
          (FactoryInjector.OverwriteFactory env self F a).1 G b).1.mInstanceCont key
      = tInstanceCont.find
        (FactoryInjector.OverwriteFactory env
          (FactoryInjector.OverwriteFactory env self G b).1 F a).1.mInstanceCont key) ∧
    (∀ T, FactoryInjector.GetFactory env
        (FactoryInjector.OverwriteFactory env
          (FactoryInjector.OverwriteFactory env self F a).1 G b).1 T
      = FactoryInjector.GetFactory env
        (FactoryInjector.OverwriteFactory env
          (FactoryInjector.OverwriteFactory env self G b).1 F a).1 T) ∧
    (∀ key, tInstanceCont.find
        (FactoryInjector.RegisterFactory env
          (FactoryInjector.RegisterFactory env self F a).1 G b).1.mInstanceCont key
      = tInstanceCont.find
        (FactoryInjector.RegisterFactory env
          (FactoryInjector.RegisterFactory env self G b).1 F a).1.mInstanceCont key) ∧
    (∀ T, FactoryInjector.GetFactory env
        (FactoryInjector.RegisterFactory env
          (FactoryInjector.RegisterFactory env self F a).1 G b).1 T
      = FactoryInjector.GetFactory env
        (FactoryInjector.RegisterFactory env
          (FactoryInjector.RegisterFactory env self G b).1 F a).1 T) := by
  have ho : ∀ key, tInstanceCont.find
        (FactoryInjector.OverwriteFactory env
          (FactoryInjector.OverwriteFactory env self F a).1 G b).1.mInstanceCont key
      = tInstanceCont.find
        (FactoryInjector.OverwriteFactory env
          (FactoryInjector.OverwriteFactory env self G b).1 F a).1.mInstanceCont key :=
    FactoryInjector.find_commute
      (fun s => (FactoryInjector.OverwriteFactory env s F a).1)
      (fun s => (FactoryInjector.OverwriteFactory env s G b).1) _ _ hdiff
      (fun s key h => FactoryInjector.OverwriteFactory_find_other env s F a key h)
      (fun s key h => FactoryInjector.OverwriteFactory_find_other env s G b key h)
      (fun x y h => FactoryInjector.OverwriteFactory_find_own_congr env x y F a h)
      (fun x y h => FactoryInjector.OverwriteFactory_find_own_congr env x y G b h) self
  have hr : ∀ key, tInstanceCont.find
        (FactoryInjector.RegisterFactory env
          (FactoryInjector.RegisterFactory env self F a).1 G b).1.mInstanceCont key
      = tInstanceCont.find
        (FactoryInjector.RegisterFactory env
          (FactoryInjector.RegisterFactory env self G b).1 F a).1.mInstanceCont key :=
    FactoryInjector.find_commute
      (fun s => (FactoryInjector.RegisterFactory env s F a).1)
      (fun s => (FactoryInjector.RegisterFactory env s G b).1) _ _ hdiff
      (fun s key h => FactoryInjector.RegisterFactory_find_other env s F a key h)
      (fun s key h => FactoryInjector.RegisterFactory_find_other env s G b key h)
      (fun x y h => FactoryInjector.RegisterFactory_find_own_congr env x y F a h)
      (fun x y h => FactoryInjector.RegisterFactory_find_own_congr env x y G b h) self
  exact ⟨ho, fun T => FactoryInjector.GetFactory_congr env _ _ T (ho _),
    hr, fun T => FactoryInjector.GetFactory_congr env _ _ T (hr _)⟩

/-- C14 at the test classes: a `DummyClass1Factory` and an `IOtherClassFactory`
registered on a new injector in either order give the same lookups. -/
theorem C14_order_of_writes_is_irrelevant_witness :
    FactoryInjector.GetFactory ut.env
        (FactoryInjector.RegisterFactory ut.env
          (FactoryInjector.RegisterFactory ut.env FactoryInjector.new
            (QualType.plain ut.DummyClass1Factory) []).1
          (QualType.plain ut.IOtherClassFactory) []).1
        (QualType.plain ut.IDummyClassFactory)
      = FactoryInjector.GetFactory ut.env
        (FactoryInjector.RegisterFactory ut.env
          (FactoryInjector.RegisterFactory ut.env FactoryInjector.new
            (QualType.plain ut.IOtherClassFactory) []).1
          (QualType.plain ut.DummyClass1Factory) []).1
        (QualType.plain ut.IDummyClassFactory) :=
  (C14_order_of_writes_is_irrelevant ut.env FactoryInjector.new
    (QualType.plain ut.DummyClass1Factory) (QualType.plain ut.IOtherClassFactory) [] []
    (by decide)).2.2.2 (QualType.plain ut.IDummyClassFactory)

/-! ## The shape of the container -/

theorem tInstanceCont.assign_keys (m : tInstanceCont) (k : type_index) (p : tAnyInstancePtr) :
    (tInstanceCont.assign m k p).map Prod.fst = m.map Prod.fst := by
  induction m with
  | nil => rfl
  | cons e rest ih =>
    obtain ⟨k0, v0⟩ := e
    by_cases hk : k0 = k
    · simp [tInstanceCont.assign, hk]
    · simp only [tInstanceCont.assign, hk, if_false, List.map_cons, ih]

theorem tInstanceCont.assign_length (m : tInstanceCont) (k : type_index) (p : tAnyInstancePtr) :
    (tInstanceCont.assign m k p).length = m.length := by
  have h := congrArg List.length (tInstanceCont.assign_keys m k p)
  simpa using h

theorem tInstanceCont.find_eq_none_iff (m : tInstanceCont) (k : type_index) :
    tInstanceCont.find m k = none ↔ k ∉ m.map Prod.fst := by
  induction m with
  | nil => simp [tInstanceCont.find]
  | cons e rest ih =>
    obtain ⟨k0, v0⟩ := e
    by_cases hk : k0 = k
    · simp [tInstanceCont.find, hk]
    · simp only [tInstanceCont.find, hk, if_false, List.map_cons, List.mem_cons, ih]
      constructor
      · intro h hor
        rcases hor with hor | hor
        · exact hk hor.symm
        · exact h hor
      · intro h hmem
        exact h (Or.inr hmem)

theorem tInstanceCont.find_some_mem (m : tInstanceCont) (k : type_index) (v : tAnyInstancePtr)
    (h : tInstanceCont.find m k = some v) : (k, v) ∈ m := by
  induction m with
  | nil => simp [tInstanceCont.find] at h
  | cons e rest ih =>
    obtain ⟨k0, v0⟩ := e
    by_cases hk : k0 = k
    · simp only [tInstanceCont.find, hk, if_true, Option.some.injEq] at h
      simp [hk, h]
    · simp only [tInstanceCont.find, hk, if_false] at h
      exact List.mem_cons_of_mem _ (ih h)

theorem tInstanceCont.mem_assign (m : tInstanceCont) (k : type_index) (p : tAnyInstancePtr)
    (e : type_index × tAnyInstancePtr) (h : e ∈ tInstanceCont.assign m k p) :
    e ∈ m ∨ e = (k, p) := by
  induction m with
  | nil => simp [tInstanceCont.assign] at h
  | cons e0 rest ih =>
    obtain ⟨k0, v0⟩ := e0
    by_cases hk : k0 = k
    · simp only [tInstanceCont.assign, hk, if_true, List.mem_cons] at h
      rcases h with h | h
      · exact Or.inr h
      · exact Or.inl (List.mem_cons_of_mem _ h)
    · simp only [tInstanceCont.assign, hk, if_false, List.mem_cons] at h
      rcases h with h | h
      · exact Or.inl (by simp [h])
      · rcases ih h with h2 | h2
        · exact Or.inl (List.mem_cons_of_mem _ h2)
        · exact Or.inr h2

theorem tInstanceCont.assign_append_absent (m : tInstanceCont) (k : type_index)
    (x p : tAnyInstancePtr) (h : tInstanceCont.find m k = none) :
    tInstanceCont.assign (m ++ [(k, x)]) k p = m ++ [(k, p)] := by
  induction m with
  | nil => simp [tInstanceCont.assign]
  | cons e rest ih =>
    obtain ⟨k0, v0⟩ := e
    by_cases hk : k0 = k
    · simp [tInstanceCont.find, hk] at h
    · simp only [tInstanceCont.find, hk, if_false] at h
      have hstep : tInstanceCont.assign ((k0, v0) :: (rest ++ [(k, x)])) k p
          = (k0, v0) :: tInstanceCont.assign (rest ++ [(k, x)]) k p := by
        simp only [tInstanceCont.assign, hk, if_false]
      rw [List.cons_append, hstep, ih h, List.cons_append]

/-- Every element after `m[k] = p` is an element of `m` or the new `(k, p)`:
the null pointer `m[k]` may have inserted is the one that is assigned to. -/
theorem tInstanceCont.mem_store (m : tInstanceCont) (k : type_index) (p : tAnyInstancePtr)
    (e : type_index × tAnyInstancePtr)
    (h : e ∈ tInstanceCont.assign (tInstanceCont.subscript m k) k p) :
    e ∈ m ∨ e = (k, p) := by
  by_cases hf : tInstanceCont.find m k = none
  · have hs : tInstanceCont.subscript m k = m ++ [(k, none)] := by
      simp [tInstanceCont.subscript, hf]
    rw [hs, tInstanceCont.assign_append_absent m k none p hf] at h
    simpa using h
  · rw [tInstanceCont.subscript_present m k hf] at h
    exact tInstanceCont.mem_assign m k p e h

theorem tInstanceCont.subscript_keys_nodup (m : tInstanceCont) (k : type_index)
    (h : (m.map Prod.fst).Nodup) : ((tInstanceCont.subscript m k).map Prod.fst).Nodup := by
  by_cases hf : tInstanceCont.find m k = none
  · have hs : tInstanceCont.subscript m k = m ++ [(k, none)] := by
      simp [tInstanceCont.subscript, hf]
    rw [hs, List.map_append, List.nodup_append]
    refine ⟨h, by simp, ?_⟩
    intro a ha hb
    simp only [List.map_cons, List.map_nil, List.mem_singleton] at hb
    subst hb
    exact (tInstanceCont.find_eq_none_iff m a).1 hf ha
  · rw [tInstanceCont.subscript_present m k hf]
    exact h

theorem tInstanceCont.subscript_length (m : tInstanceCont) (k : type_index) :
    (tInstanceCont.subscript m k).length
      = if tInstanceCont.find m k = none then m.length + 1 else m.length := by
  by_cases hf : tInstanceCont.find m k = none
  · simp [tInstanceCont.subscript, hf]
  · rw [tInstanceCont.subscript_present m k hf]
    simp [hf]

theorem FactoryInjector.OverwriteFactory_keys_nodup (env : Env) (self : FactoryInjector)
    (T : QualType ClassDecl) (rrArgs : List Int)
    (h : (self.mInstanceCont.map Prod.fst).Nodup) :
    ((FactoryInjector.OverwriteFactory env self T rrArgs).1.mInstanceCont.map Prod.fst).Nodup := by
  cases hc : env.construct T.base.name rrArgs with
  | ok members =>
    rw [FactoryInjector.OverwriteFactory_ok env self T rrArgs members hc]
    simp only [tInstanceCont.assign_keys]
    exact tInstanceCont.subscript_keys_nodup _ _ h
  | error what =>
    rw [FactoryInjector.OverwriteFactory_error env self T rrArgs what hc]
    cases env.rhsFirst
    · exact tInstanceCont.subscript_keys_nodup _ _ h
    · exact h

theorem FactoryInjector.call_keys_nodup (env : Env) (self : FactoryInjector) (c : Call)
    (h : (self.mInstanceCont.map Prod.fst).Nodup) :
    ((FactoryInjector.call env self c).mInstanceCont.map Prod.fst).Nodup := by
  cases c with
  | OverwriteFactory T rrArgs => exact FactoryInjector.OverwriteFactory_keys_nodup env self T rrArgs h
  | RegisterFactory T rrArgs =>
    simp only [FactoryInjector.call]
    by_cases hf : tInstanceCont.find self.mInstanceCont
        (FactoryInjector.GetInterfaceTypeIndex T) = none
    · rw [FactoryInjector.RegisterFactory_absent env self T rrArgs hf]
      exact FactoryInjector.OverwriteFactory_keys_nodup env self T rrArgs h
    · rw [FactoryInjector.RegisterFactory_present env self T rrArgs hf]
      exact h
  | GetFactory T => exact h
  | CreateObject T rrArgs => exact h

theorem FactoryInjector.run_keys_nodup (env : Env) (calls : List Call) (self : FactoryInjector)
    (h : (self.mInstanceCont.map Prod.fst).Nodup) :
    ((FactoryInjector.run env self calls).mInstanceCont.map Prod.fst).Nodup := by
  induction calls generalizing self with
  | nil => exact h
  | cons c rest ih => exact ih _ (FactoryInjector.call_keys_nodup env self c h)

/-- C15: in every registry reached from a new injector by a sequence of
`RegisterFactory`, `OverwriteFactory`, `GetFactory` and `CreateObject` calls no
interface index is the key of more than one element. In any registry
`OverwriteFactory` on an occupied slot leaves the number of elements as it is,
and an `OverwriteFactory` that returns on an empty slot, like every
`RegisterFactory` that returns, makes it one more. -/
theorem C15_one_instance_per_interface (env : Env) :
    (∀ (calls : List Call) (key : type_index),
      ((FactoryInjector.run env FactoryInjector.new calls).mInstanceCont.map Prod.fst).count key
        ≤ 1) ∧
    (∀ (self : FactoryInjector) (F : QualType ClassDecl) (rrArgs : List Int),
      tInstanceCont.find self.mInstanceCont (FactoryInjector.GetInterfaceTypeIndex F) ≠ none →
      (FactoryInjector.OverwriteFactory env self F rrArgs).1.mInstanceCont.length
        = self.mInstanceCont.length) ∧
    (∀ (self : FactoryInjector) (F : QualType ClassDecl) (rrArgs : List Int),
      tInstanceCont.find self.mInstanceCont (FactoryInjector.GetInterfaceTypeIndex F) = none →
      (FactoryInjector.OverwriteFactory env self F rrArgs).2 = Outcome.returns () →
      (FactoryInjector.OverwriteFactory env self F rrArgs).1.mInstanceCont.length
        = self.mInstanceCont.length + 1) ∧
    (∀ (self : FactoryInjector) (F : QualType ClassDecl) (rrArgs : List Int),
      (FactoryInjector.RegisterFactory env self F rrArgs).2 = Outcome.returns () →
      (FactoryInjector.RegisterFactory env self F rrArgs).1.mInstanceCont.length
        = self.mInstanceCont.length + 1) := by
  have hempty : ∀ (self : FactoryInjector) (F : QualType ClassDecl) (rrArgs : List Int),
      tInstanceCont.find self.mInstanceCont (FactoryInjector.GetInterfaceTypeIndex F) = none →
      (FactoryInjector.OverwriteFactory env self F rrArgs).2 = Outcome.returns () →
      (FactoryInjector.OverwriteFactory env self F rrArgs).1.mInstanceCont.length
        = self.mInstanceCont.length + 1 := by
    intro self F rrArgs habs hret
    obtain ⟨members, hc⟩ := FactoryInjector.OverwriteFactory_returns env self F rrArgs hret
    rw [FactoryInjector.OverwriteFactory_ok env self F rrArgs members hc]
    simp only [tInstanceCont.assign_length, tInstanceCont.subscript_length, habs, if_true]
  refine ⟨?_, ?_, hempty, ?_⟩
  · intro calls
    apply List.nodup_iff_count_le_one.1
    apply FactoryInjector.run_keys_nodup
    simp [FactoryInjector.new]
  · intro self F rrArgs hocc
    cases hc : env.construct F.base.name rrArgs with
    | ok members =>
      rw [FactoryInjector.OverwriteFactory_ok env self F rrArgs members hc]
      simp only [tInstanceCont.assign_length, tInstanceCont.subscript_present _ _ hocc]
    | error what =>
      rw [FactoryInjector.OverwriteFactory_error env self F rrArgs what hc]
      cases env.rhsFirst
      · simp only [Bool.false_eq_true, if_false, tInstanceCont.subscript_present _ _ hocc]
      · rfl
  · intro self F rrArgs hret
    by_cases habs : tInstanceCont.find self.mInstanceCont
        (FactoryInjector.GetInterfaceTypeIndex F) = none
    · rw [FactoryInjector.RegisterFactory_absent env self F rrArgs habs] at hret ⊢
      exact hempty self F rrArgs habs hret
    · rw [FactoryInjector.RegisterFactory_present env self F rrArgs habs] at hret
      simp at hret

/-- Every element holds a non-null holder whose pointer is non-null. -/
theorem FactoryInjector.OverwriteFactory_holders (env : Env) (self : FactoryInjector)
    (T : QualType ClassDecl) (rrArgs : List Int)
    (hctor : ∀ c args, ∃ members, env.construct c args = Except.ok members)
    (h : ∀ e ∈ self.mInstanceCont, ∃ holder obj, e.2 = some holder ∧
      RealInstance.GetPtr holder = some obj) :
    ∀ e ∈ (FactoryInjector.OverwriteFactory env self T rrArgs).1.mInstanceCont,
      ∃ holder obj, e.2 = some holder ∧ RealInstance.GetPtr holder = some obj := by
  obtain ⟨members, hc⟩ := hctor T.base.name rrArgs
  rw [FactoryInjector.OverwriteFactory_ok env self T rrArgs members hc]
  intro e he
  rcases tInstanceCont.mem_store _ _ _ e he with hm | hm
  · exact h e hm
  · rw [hm]
    exact ⟨_, _, rfl, rfl⟩

theorem FactoryInjector.call_holders (env : Env) (self : FactoryInjector) (c : Call)
    (hctor : ∀ c args, ∃ members, env.construct c args = Except.ok members)
    (h : ∀ e ∈ self.mInstanceCont, ∃ holder obj, e.2 = some holder ∧
      RealInstance.GetPtr holder = some obj) :
    ∀ e ∈ (FactoryInjector.call env self c).mInstanceCont,
      ∃ holder obj, e.2 = some holder ∧ RealInstance.GetPtr holder = some obj := by
  cases c with
  | OverwriteFactory T rrArgs =>
    exact FactoryInjector.OverwriteFactory_holders env self T rrArgs hctor h
  | RegisterFactory T rrArgs =>
    simp only [FactoryInjector.call]
    by_cases hf : tInstanceCont.find self.mInstanceCont
        (FactoryInjector.GetInterfaceTypeIndex T) = none
    · rw [FactoryInjector.RegisterFactory_absent env self T rrArgs hf]
      exact FactoryInjector.OverwriteFactory_holders env self T rrArgs hctor h
    · rw [FactoryInjector.RegisterFactory_present env self T rrArgs hf]
      exact h
  | GetFactory T => exact h
  | CreateObject T rrArgs => exact h

theorem FactoryInjector.run_holders (env : Env) (calls : List Call) (self : FactoryInjector)
    (hctor : ∀ c args, ∃ members, env.construct c args = Except.ok members)
    (h : ∀ e ∈ self.mInstanceCont, ∃ holder obj, e.2 = some holder ∧
      RealInstance.GetPtr holder = some obj) :
    ∀ e ∈ (FactoryInjector.run env self calls).mInstanceCont,
      ∃ holder obj, e.2 = some holder ∧ RealInstance.GetPtr holder = some obj := by
  induction calls generalizing self with
  | nil => exact h
  | cons c rest ih => exact ih _ (FactoryInjector.call_holders env self c hctor h)

/-- C19: when no constructor throws, every element of the container of a
registry reached from a new injector by public calls holds a non-null holder
whose `GetPtr()` is non-null, in either order of evaluation; so `GetFactory`
never goes through a null pointer there: it returns or it throws
`FactoryNotRegisteredEx`. -/
theorem C19_no_null_holder_when_constructors_succeed (env : Env)
    (hctor : ∀ c args, ∃ members, env.construct c args = Except.ok members)
    (calls : List Call) :
    (∀ e ∈ (FactoryInjector.run env FactoryInjector.new calls).mInstanceCont,
      ∃ holder obj, e.2 = some holder ∧ RealInstance.GetPtr holder = some obj) ∧
    (∀ T, FactoryInjector.GetFactory env (FactoryInjector.run env FactoryInjector.new calls) T
      ≠ Outcome.undefined) := by
  have hall := FactoryInjector.run_holders env calls FactoryInjector.new hctor
    (by simp [FactoryInjector.new])
  refine ⟨hall, ?_⟩
  intro T
  unfold FactoryInjector.GetFactory FactoryInjector.FindFactory
  cases hf : tInstanceCont.find (FactoryInjector.run env FactoryInjector.new calls).mInstanceCont
      (FactoryInjector.GetInterfaceTypeIndex T) with
  | none => simp
  | some second =>
    obtain ⟨holder, obj, hsec, hptr⟩ := hall _ (tInstanceCont.find_some_mem _ _ _ hf)
    simp only at hsec
    subst hsec
    simp [hptr]

/-- C19 at the test program with the left operand evaluated first: after
registering, overwriting and looking up, the lookups do not meet a null pointer. -/
theorem C19_no_null_holder_when_constructors_succeed_witness :
    FactoryInjector.GetFactory ut.envDefaulted
        (FactoryInjector.run ut.envDefaulted FactoryInjector.new
          [Call.RegisterFactory (QualType.plain ut.DummyClass1Factory) [],
            Call.OverwriteFactory (QualType.plain ut.DummyClass2Factory) [],
            Call.GetFactory (QualType.plain ut.IDummyClassFactory),
            Call.RegisterFactory (QualType.plain ut.IOtherClassFactory) []])
        (QualType.plain ut.IDummyClassFactory)
      ≠ Outcome.undefined :=
  (C19_no_null_holder_when_constructors_succeed ut.envDefaulted (fun _ _ => ⟨[], rfl⟩)
    [Call.RegisterFactory (QualType.plain ut.DummyClass1Factory) [],
      Call.OverwriteFactory (QualType.plain ut.DummyClass2Factory) [],
      Call.GetFactory (QualType.plain ut.IDummyClassFactory),
      Call.RegisterFactory (QualType.plain ut.IOtherClassFactory) []]).2
    (QualType.plain ut.IDummyClassFactory)

/-! ## Last writer -/

/-- A call counts as a successful write of the slot `key` exactly when it is
an `OverwriteFactory` for it, or a `RegisterFactory` for it that finds it empty. -/
theorem Call.successfulWrite_eq (env : Env) (self : FactoryInjector) (key : type_index)
    (c : Call) :
    c.successfulWrite env self key
      = match c.overwrites key with
        | some w => some w
        | none =>
          if tInstanceCont.find self.mInstanceCont key = none then c.registers key else none := by
  cases c with
  | OverwriteFactory T rrArgs =>
    by_cases hk : FactoryInjector.GetInterfaceTypeIndex T = key
    · simp [Call.successfulWrite, Call.overwrites, hk]
    · simp [Call.successfulWrite, Call.overwrites, Call.registers, hk]
  | RegisterFactory T rrArgs =>
    by_cases hk : FactoryInjector.GetInterfaceTypeIndex T = key
    · subst hk
      by_cases habs : tInstanceCont.find self.mInstanceCont
          (FactoryInjector.GetInterfaceTypeIndex T) = none
      · have hout : (FactoryInjector.RegisterFactory env self T rrArgs).2.isAlreadyRegistered
            = false := by
          rw [FactoryInjector.RegisterFactory_absent env self T rrArgs habs,
            FactoryInjector.OverwriteFactory_outcome]
          cases env.construct T.base.name rrArgs <;> rfl
        simp [Call.successfulWrite, Call.overwrites, Call.registers, habs, hout]
      · have hout : (FactoryInjector.RegisterFactory env self T rrArgs).2.isAlreadyRegistered
            = true := by
          rw [FactoryInjector.RegisterFactory_present env self T rrArgs habs]
          rfl
        simp [Call.successfulWrite, Call.overwrites, Call.registers, habs, hout]
    · simp [Call.successfulWrite, Call.overwrites, Call.registers, hk]
  | GetFactory T => simp [Call.successfulWrite, Call.overwrites, Call.registers]
  | CreateObject T rrArgs => simp [Call.successfulWrite, Call.overwrites, Call.registers]

/-- After a successful write of the slot `key` the slot holds the holder of
the object the call built. -/
theorem Call.successfulWrite_some_find (env : Env) (self : FactoryInjector) (key : type_index)
    (c : Call) (T : QualType ClassDecl) (rrArgs members : List Int)
    (h : c.successfulWrite env self key = some (T, rrArgs))
    (hc : env.construct T.base.name rrArgs = Except.ok members) :
    tInstanceCont.find (FactoryInjector.call env self c).mInstanceCont key
      = some (some ⟨T.base.name, some ⟨T.base.name, members⟩⟩) := by
  cases c with
  | OverwriteFactory U uArgs =>
    by_cases hk : FactoryInjector.GetInterfaceTypeIndex U = key
    · simp only [Call.successfulWrite, hk, if_true, Option.some.injEq, Prod.mk.injEq] at h
      obtain ⟨hU, hA⟩ := h
      subst hU hA hk
      simp only [FactoryInjector.call]
      rw [FactoryInjector.OverwriteFactory_ok env self U uArgs members hc]
      exact tInstanceCont.find_store_same _ _ _
    · simp [Call.successfulWrite, hk] at h
  | RegisterFactory U uArgs =>
    by_cases hk : FactoryInjector.GetInterfaceTypeIndex U = key
    · by_cases habs : tInstanceCont.find self.mInstanceCont
          (FactoryInjector.GetInterfaceTypeIndex U) = none
      · by_cases hout : (FactoryInjector.RegisterFactory env self U uArgs).2.isAlreadyRegistered
            = true
        · simp [Call.successfulWrite, hk, hout] at h
        · simp only [Call.successfulWrite, hk, if_true, hout, Bool.false_eq_true, if_false,
            Option.some.injEq, Prod.mk.injEq] at h
          obtain ⟨hU, hA⟩ := h
          subst hU hA hk
          simp only [FactoryInjector.call]
          rw [FactoryInjector.RegisterFactory_absent env self U uArgs habs,
            FactoryInjector.OverwriteFactory_ok env self U uArgs members hc]
          exact tInstanceCont.find_store_same _ _ _
      · have hout : (FactoryInjector.RegisterFactory env self U uArgs).2.isAlreadyRegistered
            = true := by
          rw [FactoryInjector.RegisterFactory_present env self U uArgs habs]
          rfl
        simp [Call.successfulWrite, hk, hout] at h
    · simp [Call.successfulWrite, hk] at h
  | GetFactory U => simp [Call.successfulWrite] at h
  | CreateObject U uArgs => simp [Call.successfulWrite] at h

/-- A call that is not a successful write of the slot `key` leaves the slot as
it found it. -/
theorem Call.successfulWrite_none_find (env : Env) (self : FactoryInjector) (key : type_index)
    (c : Call) (h : c.successfulWrite env self key = none) :
    tInstanceCont.find (FactoryInjector.call env self c).mInstanceCont key
      = tInstanceCont.find self.mInstanceCont key := by
  cases c with
  | OverwriteFactory U uArgs =>
    by_cases hk : FactoryInjector.GetInterfaceTypeIndex U = key
    · simp [Call.successfulWrite, hk] at h
    · exact FactoryInjector.OverwriteFactory_find_other env self U uArgs key hk
  | RegisterFactory U uArgs =>
    by_cases hk : FactoryInjector.GetInterfaceTypeIndex U = key
    · by_cases habs : tInstanceCont.find self.mInstanceCont
          (FactoryInjector.GetInterfaceTypeIndex U) = none
      · have hout : (FactoryInjector.RegisterFactory env self U uArgs).2.isAlreadyRegistered
            = false := by
          rw [FactoryInjector.RegisterFactory_absent env self U uArgs habs,
            FactoryInjector.OverwriteFactory_outcome]
          cases env.construct U.base.name uArgs <;> rfl
        simp [Call.successfulWrite, hk, hout] at h
      · simp only [FactoryInjector.call]
        rw [FactoryInjector.RegisterFactory_present env self U uArgs habs]
    · exact FactoryInjector.RegisterFactory_find_other env self U uArgs key hk
  | GetFactory U => rfl
  | CreateObject U uArgs => rfl

/-- With constructors that do not throw, a slot is empty after a call exactly
when it was empty before and the call does not write it. -/
theorem FactoryInjector.call_find_eq_none_iff (env : Env)
    (hctor : ∀ c args, ∃ members, env.construct c args = Except.ok members)
    (self : FactoryInjector) (key : type_index) (c : Call) :
    tInstanceCont.find (FactoryInjector.call env self c).mInstanceCont key = none
      ↔ tInstanceCont.find self.mInstanceCont key = none ∧ c.writesSlot key = false := by
  by_cases hs : c.successfulWrite env self key = none
  · rw [Call.successfulWrite_none_find env self key c hs]
    rw [Call.successfulWrite_eq] at hs
    constructor
    · intro habs
      refine ⟨habs, ?_⟩
      simp only [habs, if_true] at hs
      cases ho : c.overwrites key with
      | some w => simp [ho] at hs
      | none =>
        simp only [ho] at hs
        simp [Call.writesSlot, ho, hs]
    · intro h
      exact h.1
  · obtain ⟨⟨T, rrArgs⟩, hw⟩ := Option.ne_none_iff_exists'.1 hs
    obtain ⟨members, hc⟩ := hctor T.base.name rrArgs
    rw [Call.successfulWrite_some_find env self key c T rrArgs members hw hc]
    constructor
    · intro h
      simp at h
    · rintro ⟨habs, hnw⟩
      rw [Call.successfulWrite_eq] at hw
      simp only [Call.writesSlot, Bool.or_eq_false_iff] at hnw
      cases ho : c.overwrites key with
      | some w => simp [ho] at hnw
      | none =>
        cases hr : c.registers key with
        | some w => simp [hr] at hnw
        | none => simp [ho, hr, habs] at hw

/-- The slot `key` after a sequence of calls: the holder built by the last
successful write for it, or what it held at the start when there is none. -/
theorem FactoryInjector.run_find_lastSuccessfulWrite (env : Env) (key : type_index)
    (calls : List Call) (self : FactoryInjector) :
    (∀ (T : QualType ClassDecl) (rrArgs members : List Int),
      FactoryInjector.lastSuccessfulWrite env self key calls = some (T, rrArgs) →
      env.construct T.base.name rrArgs = Except.ok members →
      tInstanceCont.find (FactoryInjector.run env self calls).mInstanceCont key
        = some (some ⟨T.base.name, some ⟨T.base.name, members⟩⟩)) ∧
    (FactoryInjector.lastSuccessfulWrite env self key calls = none →
      tInstanceCont.find (FactoryInjector.run env self calls).mInstanceCont key
        = tInstanceCont.find self.mInstanceCont key) := by
  induction calls generalizing self with
  | nil =>
    constructor
    · intro T rrArgs members h
      simp [FactoryInjector.lastSuccessfulWrite] at h
    · intro _
      rfl
  | cons c rest ih =>
    obtain ⟨ihsome, ihnone⟩ := ih (FactoryInjector.call env self c)
    simp only [FactoryInjector.lastSuccessfulWrite, FactoryInjector.run]
    cases hl : FactoryInjector.lastSuccessfulWrite env (FactoryInjector.call env self c) key rest with
    | some w =>
      constructor
      · intro T rrArgs members h hc
        simp only [Option.some.injEq] at h
        subst h
        exact ihsome T rrArgs members hl hc
      · intro h
        simp at h
    | none =>
      constructor
      · intro T rrArgs members h hc
        simp only at h
        rw [ihnone hl]
        exact Call.successfulWrite_some_find env self key c T rrArgs members h hc
      · intro h
        simp only at h
        rw [ihnone hl]
        exact Call.successfulWrite_none_find env self key c h

/-- With constructors that do not throw, the last successful write of a slot
is the last `OverwriteFactory` for it, or the first `RegisterFactory` for it
when there is no `OverwriteFactory` and the slot was empty at the start. -/
theorem FactoryInjector.lastSuccessfulWrite_eq (env : Env)
    (hctor : ∀ c args, ∃ members, env.construct c args = Except.ok members)
    (key : type_index) (calls : List Call) (self : FactoryInjector) :
    FactoryInjector.lastSuccessfulWrite env self key calls
      = match lastOverwrite key calls with
        | some w => some w
        | none =>
          if tInstanceCont.find self.mInstanceCont key = none then firstRegister key calls
          else none := by
  induction calls generalizing self with
  | nil => simp [FactoryInjector.lastSuccessfulWrite, lastOverwrite, firstRegister]
  | cons c rest ih =>
    simp only [FactoryInjector.lastSuccessfulWrite, lastOverwrite, firstRegister]
    rw [ih (FactoryInjector.call env self c), Call.successfulWrite_eq]
    have hiff := FactoryInjector.call_find_eq_none_iff env hctor self key c
    cases hlo : lastOverwrite key rest with
    | some w => rfl
    | none =>
      simp only
      cases ho : c.overwrites key with
      | some w =>
        have hne : tInstanceCont.find (FactoryInjector.call env self c).mInstanceCont key
            ≠ none := by
          intro habs
          have := (hiff.1 habs).2
          simp [Call.writesSlot, ho] at this
        simp [hne]
      | none =>
        by_cases habs : tInstanceCont.find self.mInstanceCont key = none
        · cases hr : c.registers key with
          | some w =>
            have hne : tInstanceCont.find (FactoryInjector.call env self c).mInstanceCont key
                ≠ none := by
              intro habs2
              have := (hiff.1 habs2).2
              simp [Call.writesSlot, hr] at this
            simp [hne, habs]
          | none =>
            have habs2 : tInstanceCont.find (FactoryInjector.call env self c).mInstanceCont key
                = none := hiff.2 ⟨habs, by simp [Call.writesSlot, ho, hr]⟩
            simp only [habs2, habs, if_true]
            cases firstRegister key rest <;> rfl
        · have hne : tInstanceCont.find (FactoryInjector.call env self c).mInstanceCont key
              ≠ none := fun habs2 => habs (hiff.1 habs2).1
          simp [hne, habs]

/-- A sequence has a writer for a slot exactly when one of its calls is an
`OverwriteFactory` or a `RegisterFactory` for that slot. -/
theorem lastWriter_eq_none_iff (key : type_index) (calls : List Call) :
    lastWriter key calls = none ↔ ∀ c ∈ calls, c.writesSlot key = false := by
  induction calls with
  | nil => simp [lastWriter, lastOverwrite, firstRegister]
  | cons c rest ih =>
    simp only [lastWriter, lastOverwrite, firstRegister, List.mem_cons, forall_eq_or_imp,
      Call.writesSlot, Bool.or_eq_false_iff] at ih ⊢
    cases hlo : lastOverwrite key rest with
    | some w =>
      simp only [hlo] at ih
      constructor
      · intro h
        simp at h
      · rintro ⟨_, hrest⟩
        have := ih.2 hrest
        simp at this
    | none =>
      simp only [hlo] at ih
      cases ho : c.overwrites key with
      | some w => simp
      | none =>
        cases hr : c.registers key with
        | some w => simp
        | none =>
          simp only [Option.isSome_none, and_self, true_and]
          exact ih

/-- C17: with constructors that do not throw, after any sequence of calls on a
new injector `GetFactory<I>()` returns exactly when the sequence has an
`OverwriteFactory` or a `RegisterFactory` for the slot of `I`; what it returns
is the object built by the last call for that slot that did not end in
`FactoryAlreadyRegisteredEx`; and that call is the last `OverwriteFactory` for
the slot, or the first `RegisterFactory` for it when the sequence has no
`OverwriteFactory` for it. -/
theorem C17_last_successful_writer_wins (env : Env)
    (hctor : ∀ c args, ∃ members, env.construct c args = Except.ok members)
    (calls : List Call) (I : QualType ClassDecl) :
    ((∃ r, FactoryInjector.GetFactory env (FactoryInjector.run env FactoryInjector.new calls) I
          = Outcome.returns r)
      ↔ ∃ c ∈ calls, c.writesSlot (FactoryInjector.GetInterfaceTypeIndex I) = true) ∧
    (∀ (T : QualType ClassDecl) (rrArgs : List Int),
      FactoryInjector.lastSuccessfulWrite env FactoryInjector.new
          (FactoryInjector.GetInterfaceTypeIndex I) calls = some (T, rrArgs) →
      ∃ members, env.construct T.base.name rrArgs = Except.ok members ∧
        FactoryInjector.GetFactory env (FactoryInjector.run env FactoryInjector.new calls) I
          = Outcome.returns ⟨traits_details.get_interface_const_ref I,
              ⟨T.base.name, members⟩⟩) ∧
    FactoryInjector.lastSuccessfulWrite env FactoryInjector.new
        (FactoryInjector.GetInterfaceTypeIndex I) calls
      = lastWriter (FactoryInjector.GetInterfaceTypeIndex I) calls := by
  have hlast : FactoryInjector.lastSuccessfulWrite env FactoryInjector.new
        (FactoryInjector.GetInterfaceTypeIndex I) calls
      = lastWriter (FactoryInjector.GetInterfaceTypeIndex I) calls := by
    rw [FactoryInjector.lastSuccessfulWrite_eq env hctor]
    simp [lastWriter, FactoryInjector.new, tInstanceCont.find]
  have hrun := FactoryInjector.run_find_lastSuccessfulWrite env
    (FactoryInjector.GetInterfaceTypeIndex I) calls FactoryInjector.new
  have hbuilt : ∀ (T : QualType ClassDecl) (rrArgs : List Int),
      FactoryInjector.lastSuccessfulWrite env FactoryInjector.new
          (FactoryInjector.GetInterfaceTypeIndex I) calls = some (T, rrArgs) →
      ∃ members, env.construct T.base.name rrArgs = Except.ok members ∧
        FactoryInjector.GetFactory env (FactoryInjector.run env FactoryInjector.new calls) I
          = Outcome.returns ⟨traits_details.get_interface_const_ref I,
              ⟨T.base.name, members⟩⟩ := by
    intro T rrArgs hw
    obtain ⟨members, hc⟩ := hctor T.base.name rrArgs
    exact ⟨members, hc, FactoryInjector.GetFactory_present env _ I T.base.name _
      (hrun.1 T rrArgs members hw hc)⟩
  refine ⟨?_, hbuilt, hlast⟩
  constructor
  · rintro ⟨r, hr⟩
    by_contra hno
    have hall : ∀ c ∈ calls,
        c.writesSlot (FactoryInjector.GetInterfaceTypeIndex I) = false := by
      intro c hc
      cases hw : c.writesSlot (FactoryInjector.GetInterfaceTypeIndex I) with
      | false => rfl
      | true => exact absurd ⟨c, hc, hw⟩ hno
    have hnone := (lastWriter_eq_none_iff _ calls).2 hall
    rw [← hlast] at hnone
    have habs := hrun.2 hnone
    rw [FactoryInjector.GetFactory_absent env _ I (by rw [habs]; rfl)] at hr
    simp at hr
  · rintro ⟨c, hc, hw⟩
    cases hl : FactoryInjector.lastSuccessfulWrite env FactoryInjector.new
        (FactoryInjector.GetInterfaceTypeIndex I) calls with
    | none =>
      rw [hlast] at hl
      have := (lastWriter_eq_none_iff _ calls).1 hl c hc
      rw [hw] at this
      simp at this
    | some w =>
      obtain ⟨T, rrArgs⟩ := w
      obtain ⟨members, _, hget⟩ := hbuilt T rrArgs hl
      exact ⟨_, hget⟩

/-- C17 at the test program: `RegisterFactory<DummyClass1Factory>()`,
`OverwriteFactory<DummyClass2Factory>()`, then a `RegisterFactory<DummyClass1Factory>()`
that throws: `GetFactory<IDummyClassFactory>()` returns the `DummyClass2Factory`. -/
theorem C17_last_successful_writer_wins_witness :
    FactoryInjector.lastSuccessfulWrite ut.envDefaulted FactoryInjector.new
        (FactoryInjector.GetInterfaceTypeIndex (QualType.plain ut.IDummyClassFactory))
        [Call.RegisterFactory (QualType.plain ut.DummyClass1Factory) [],
          Call.OverwriteFactory (QualType.plain ut.DummyClass2Factory) [],
          Call.RegisterFactory (QualType.plain ut.DummyClass1Factory) []]
      = some (QualType.plain ut.DummyClass2Factory, []) ∧
    ∃ members, ut.envDefaulted.construct "DummyClass2Factory" [] = Except.ok members ∧
      FactoryInjector.GetFactory ut.envDefaulted
          (FactoryInjector.run ut.envDefaulted FactoryInjector.new
            [Call.RegisterFactory (QualType.plain ut.DummyClass1Factory) [],
              Call.OverwriteFactory (QualType.plain ut.DummyClass2Factory) [],
              Call.RegisterFactory (QualType.plain ut.DummyClass1Factory) []])
          (QualType.plain ut.IDummyClassFactory)
        = Outcome.returns ⟨QualType.mutRef "IDummyClassFactory",
            ⟨"DummyClass2Factory", members⟩⟩ :=
  ⟨by decide,
    (C17_last_successful_writer_wins ut.envDefaulted (fun _ _ => ⟨[], rfl⟩)
      [Call.RegisterFactory (QualType.plain ut.DummyClass1Factory) [],
        Call.OverwriteFactory (QualType.plain ut.DummyClass2Factory) [],
        Call.RegisterFactory (QualType.plain ut.DummyClass1Factory) []]
      (QualType.plain ut.IDummyClassFactory)).2.1
      (QualType.plain ut.DummyClass2Factory) [] (by decide)⟩

/-! ## Messages -/

/-- A string without `NUL` is the C string it denotes. -/
theorem c_str_eq_self (s : String) (h : NUL ∉ s.data) : c_str s = s := by
  apply String.ext
  simp only [c_str]
  rw [List.takeWhile_eq_self_iff]
  intro x hx
  simp only [decide_eq_true_eq]
  intro hxe
  exact h (hxe ▸ hx)

theorem NUL_not_mem_append (a b : String) (ha : NUL ∉ a.data) (hb : NUL ∉ b.data) :
    NUL ∉ (a ++ b).data := by
  simp only [String.data_append, List.mem_append, not_or]
  exact ⟨ha, hb⟩

/-- The C string of a concatenation starts with the first character of its
first part, when that is not `NUL`. -/
theorem c_str_head (a b : String) (ch : Char) (rest : List Char) (ha : a.data = ch :: rest)
    (hch : ch ≠ NUL) : (c_str (a ++ b)).data.head? = some ch := by
  simp [c_str, String.data_append, ha, List.takeWhile_cons, hch]

/-- C20, as stated, fails for a name with an embedded `NUL`: for the name
`A\0B` the message of `FactoryAlreadyRegisteredEx` is `The requested factory A`
and the message of `FactoryNotRegisteredEx` is
`Unable to find the requested factory A`; neither is the concatenation with the
whole name, and the names `A\0B` and `A\0C` give the same messages. -/
theorem C20_counterexample_name_with_embedded_NUL :
    (FactoryAlreadyRegisteredEx ⟨['A', NUL, 'B']⟩).what = "The requested factory A" ∧
    (FactoryAlreadyRegisteredEx ⟨['A', NUL, 'B']⟩).what
      ≠ "The requested factory " ++ (⟨['A', NUL, 'B']⟩ : String) ++ " is already registered" ∧
    (FactoryNotRegisteredEx ⟨['A', NUL, 'B']⟩).what = "Unable to find the requested factory A" ∧
    (FactoryNotRegisteredEx ⟨['A', NUL, 'B']⟩).what
      ≠ "Unable to find the requested factory " ++ (⟨['A', NUL, 'B']⟩ : String) ∧
    (FactoryAlreadyRegisteredEx ⟨['A', NUL, 'B']⟩).what
      = (FactoryAlreadyRegisteredEx ⟨['A', NUL, 'C']⟩).what ∧
    (FactoryNotRegisteredEx ⟨['A', NUL, 'B']⟩).what
      = (FactoryNotRegisteredEx ⟨['A', NUL, 'C']⟩).what ∧
    (⟨['A', NUL, 'B']⟩ : String) ≠ ⟨['A', NUL, 'C']⟩ := by
  refine ⟨by decide, by decide, by decide, by decide, by decide, by decide, by decide⟩

/-- C20, amended: for every name `n` without `NUL` the message of
`FactoryAlreadyRegisteredEx(n)` is
`"The requested factory " + n + " is already registered"` and the message of
`FactoryNotRegisteredEx(n)` is `"Unable to find the requested factory " + n`;
two names without `NUL` give the same message of one kind only when they are
the same name; and for all names, with or without `NUL`, no message of one kind
is a message of the other kind. -/
theorem C20_exception_messages_of_names_without_NUL (n m : String) :
    (NUL ∉ n.data →
      (FactoryAlreadyRegisteredEx n).what
        = "The requested factory " ++ n ++ " is already registered" ∧
      (FactoryNotRegisteredEx n).what = "Unable to find the requested factory " ++ n) ∧
    (NUL ∉ n.data → NUL ∉ m.data →
      ((FactoryAlreadyRegisteredEx n).what = (FactoryAlreadyRegisteredEx m).what → n = m) ∧
      ((FactoryNotRegisteredEx n).what = (FactoryNotRegisteredEx m).what → n = m)) ∧
    (FactoryAlreadyRegisteredEx n).what ≠ (FactoryNotRegisteredEx m).what ∧
    (FactoryAlreadyRegisteredEx n).kind = ExKind.FactoryAlreadyRegisteredEx ∧
    (FactoryNotRegisteredEx n).kind = ExKind.FactoryNotRegisteredEx := by
  have hexact : ∀ k : String, NUL ∉ k.data →
      (FactoryAlreadyRegisteredEx k).what
        = "The requested factory " ++ k ++ " is already registered" ∧
      (FactoryNotRegisteredEx k).what = "Unable to find the requested factory " ++ k := by
    intro k hk
    constructor
    · exact c_str_eq_self _
        (NUL_not_mem_append _ _ (NUL_not_mem_append _ _ (by decide) hk) (by decide))
    · exact c_str_eq_self _ (NUL_not_mem_append _ _ (by decide) hk)
  refine ⟨hexact n, ?_, ?_, rfl, rfl⟩
  · intro hn hm
    constructor
    · intro h
      rw [(hexact n hn).1, (hexact m hm).1] at h
      have h2 := congrArg String.data h
      simp only [String.data_append] at h2
      exact String.ext (List.append_cancel_left (List.append_cancel_right h2))
    · intro h
      rw [(hexact n hn).2, (hexact m hm).2] at h
      have h2 := congrArg String.data h
      simp only [String.data_append] at h2
      exact String.ext (List.append_cancel_left h2)
  · intro h
    have h1 : (FactoryAlreadyRegisteredEx n).what.data.head? = some 'T' := by
      simp only [FactoryAlreadyRegisteredEx, String.append_assoc]
      exact c_str_head _ _ 'T' "he requested factory ".data (by decide) (by decide)
    have h2 : (FactoryNotRegisteredEx m).what.data.head? = some 'U' := by
      simp only [FactoryNotRegisteredEx]
      exact c_str_head _ _ 'U' "nable to find the requested factory ".data (by decide) (by decide)
    rw [h, h2] at h1
    simp at h1

/-- C20 amended, at the names the unit tests meet. -/
theorem C20_exception_messages_of_names_without_NUL_witness :
    (FactoryAlreadyRegisteredEx "18DummyClass1Factory").what
      = "The requested factory 18DummyClass1Factory is already registered" ∧
    (FactoryNotRegisteredEx "18IOtherClassFactory").what
      = "Unable to find the requested factory 18IOtherClassFactory" :=
  ⟨((C20_exception_messages_of_names_without_NUL "18DummyClass1Factory"
      "18IOtherClassFactory").1 (by decide)).1,
    ((C20_exception_messages_of_names_without_NUL "18IOtherClassFactory"
      "18DummyClass1Factory").1 (by decide)).2⟩

/-! ## Qualifiers on the type argument -/

/-- The helper `remove_const_ref` leaves the class alone and drops everything else. -/
theorem traits_details.remove_const_ref_eq {α : Type} (T : QualType α) :
    traits_details.remove_const_ref T = QualType.plain T.base := by
  simp [traits_details.remove_const_ref, std.remove_cv, std.remove_reference, QualType.plain]

theorem traits_details.get_factory_eq (T : QualType ClassDecl) :
    traits_details.get_factory T = QualType.plain T.base :=
  traits_details.remove_const_ref_eq T

theorem FactoryInjector.GetInterfaceTypeIndex_plain (T : QualType ClassDecl) :
    FactoryInjector.GetInterfaceTypeIndex T
      = FactoryInjector.GetInterfaceTypeIndex (QualType.plain T.base) :=
  FactoryInjector.GetInterfaceTypeIndex_eq _ _
    (by rw [traits_details.get_interface_eq, traits_details.get_interface_eq]; rfl)

/-- C21: `remove_const_ref<T>::type`, and so `get_factory<T>::type`, is the class
of `T` with reference, `const` and `volatile` removed. It is idempotent; it
maps `C`, `const C`, `C&`, `const C&` and `C&&` to `C`; it undoes
`add_const_ref` on an unqualified `C`. Hence a factory named as `F`, `const F`
or `const F&` (or with any other qualifier) has the same interface index, and
`RegisterFactory`, `OverwriteFactory`, `GetFactory` and `CreateObject` do the
same with each of these names. -/
theorem C21_qualifiers_on_factory_type_are_dropped :
    (∀ (α : Type) (T : QualType α),
      traits_details.remove_const_ref T = QualType.plain T.base ∧
      traits_details.remove_const_ref (traits_details.remove_const_ref T)
        = traits_details.remove_const_ref T) ∧
    (∀ (α : Type) (c : α),
      traits_details.remove_const_ref (QualType.plain c) = QualType.plain c ∧
      traits_details.remove_const_ref (⟨c, true, false, RefKind.none⟩ : QualType α)
        = QualType.plain c ∧
      traits_details.remove_const_ref (QualType.mutRef c) = QualType.plain c ∧
      traits_details.remove_const_ref (QualType.constRef c) = QualType.plain c ∧
      traits_details.remove_const_ref (⟨c, false, false, RefKind.rvalue⟩ : QualType α)
        = QualType.plain c ∧
      traits_details.remove_const_ref (traits_details.add_const_ref (QualType.plain c))
        = QualType.plain c) ∧
    (∀ T : QualType ClassDecl,
      traits_details.get_factory T = traits_details.remove_const_ref T ∧
      traits_details.get_factory T = QualType.plain T.base) ∧
    (∀ F : ClassDecl,
      FactoryInjector.GetInterfaceTypeIndex (⟨F, true, false, RefKind.none⟩ : QualType ClassDecl)
        = FactoryInjector.GetInterfaceTypeIndex (QualType.plain F) ∧
      FactoryInjector.GetInterfaceTypeIndex (QualType.constRef F)
        = FactoryInjector.GetInterfaceTypeIndex (QualType.plain F)) ∧
    (∀ (env : Env) (self : FactoryInjector) (T : QualType ClassDecl) (rrArgs : List Int),
      FactoryInjector.RegisterFactory env self T rrArgs
        = FactoryInjector.RegisterFactory env self (QualType.plain T.base) rrArgs ∧
      FactoryInjector.OverwriteFactory env self T rrArgs
        = FactoryInjector.OverwriteFactory env self (QualType.plain T.base) rrArgs ∧
      FactoryInjector.GetFactory env self T
        = FactoryInjector.GetFactory env self (QualType.plain T.base) ∧
      FactoryInjector.CreateObject env self T rrArgs
        = FactoryInjector.CreateObject env self (QualType.plain T.base) rrArgs) := by
  refine ⟨?_, ?_, ?_, ?_, ?_⟩
  · intro α T
    refine ⟨traits_details.remove_const_ref_eq T, ?_⟩
    rw [traits_details.remove_const_ref_eq, traits_details.remove_const_ref_eq]
    rfl
  · intro α c
    refine ⟨?_, ?_, ?_, ?_, ?_, ?_⟩ <;> rw [traits_details.remove_const_ref_eq] <;> rfl
  · intro T
    exact ⟨rfl, traits_details.get_factory_eq T⟩
  · intro F
    exact ⟨FactoryInjector.GetInterfaceTypeIndex_plain _,
      FactoryInjector.GetInterfaceTypeIndex_plain _⟩
  · intro env self T rrArgs
    have hidx := FactoryInjector.GetInterfaceTypeIndex_plain T
    have hfac : traits_details.get_factory T
        = traits_details.get_factory (QualType.plain T.base) := by
      rw [traits_details.get_factory_eq, traits_details.get_factory_eq]
      rfl
    have hint : traits_details.get_interface_const_ref T
        = traits_details.get_interface_const_ref (QualType.plain T.base) := by
      simp only [traits_details.get_interface_const_ref, traits_details.get_interface_eq]
      rfl
    have hname : typeid T.byName = typeid (QualType.plain T.base).byName := rfl
    have hover : FactoryInjector.OverwriteFactory env self T rrArgs
        = FactoryInjector.OverwriteFactory env self (QualType.plain T.base) rrArgs := by
      unfold FactoryInjector.OverwriteFactory
      simp only [hidx, hfac]
    have hget : FactoryInjector.GetFactory env self T
        = FactoryInjector.GetFactory env self (QualType.plain T.base) := by
      unfold FactoryInjector.GetFactory FactoryInjector.FindFactory
      simp only [hidx, hint, hname]
    refine ⟨?_, hover, hget, ?_⟩
    · unfold FactoryInjector.RegisterFactory FactoryInjector.FindFactory
      simp only [hidx, hover, hname]
    · unfold FactoryInjector.CreateObject
      rw [hget]

/-! ## Lookup and creation leave the slots -/

/-- In a program whose `Create` leaves its factory as it is, following the
bodies gives the registry `FactoryInjector.call` gives. -/
theorem FactoryInjector.callStep_eq_call (env : Env)
    (hconst : ∀ c members args, env.CreateEffect c members args = members)
    (self : FactoryInjector) (c : Call) :
    FactoryInjector.callStep env self c = FactoryInjector.call env self c := by
  cases c with
  | OverwriteFactory T rrArgs => rfl
  | RegisterFactory T rrArgs => rfl
  | GetFactory T =>
    simp only [FactoryInjector.callStep, FactoryInjector.call,
      FactoryInjector.GetFactoryStep_eq]
  | CreateObject T rrArgs =>
    simp only [FactoryInjector.callStep, FactoryInjector.call]
    exact FactoryInjector.CreateObjectStep_unchanged env self T rrArgs hconst

theorem FactoryInjector.runStep_eq_run (env : Env)
    (hconst : ∀ c members args, env.CreateEffect c members args = members)
    (calls : List Call) (self : FactoryInjector) :
    FactoryInjector.runStep env self calls = FactoryInjector.run env self calls := by
  induction calls generalizing self with
  | nil => rfl
  | cons c rest ih =>
    simp only [FactoryInjector.runStep, FactoryInjector.run,
      FactoryInjector.callStep_eq_call env hconst, ih]

/-- A `Create` that is not `const` at work: after `OverwriteFactory<CountingFactory>()`
a `CreateObject<IDummyClassFactory>()` leaves the counter of the stored factory
at 1; the slot holds the instance it held. -/
theorem FactoryInjector.CreateObjectStep_counting :
    (FactoryInjector.CreateObjectStep ut.envCounting
        (FactoryInjector.OverwriteFactory ut.envCounting FactoryInjector.new
          (QualType.plain ut.CountingFactory) []).1
        (QualType.plain ut.IDummyClassFactory) []).1
      = ⟨[(⟨⟨"IDummyClassFactory"⟩⟩,
            some ⟨"CountingFactory", some ⟨"CountingFactory", [1]⟩⟩)]⟩ ∧
    (FactoryInjector.OverwriteFactory ut.envCounting FactoryInjector.new
        (QualType.plain ut.CountingFactory) []).1
      = ⟨[(⟨⟨"IDummyClassFactory"⟩⟩,
            some ⟨"CountingFactory", some ⟨"CountingFactory", [0]⟩⟩)]⟩ := by
  refine ⟨by decide, by decide⟩

/-- C16: the pointer `GetFactory` dereferences holds the address of the stored
object; it is the address of the interface subobject exactly when that
subobject lies at offset 0. For `DummyClass1Factory` stored at 4096 both are
4096. For `SecondBaseFactory`, which has `IDummyClassFactory` as its second
base, stored at 4096, `GetFactory` dereferences 4096 as an
`IDummyClassFactory` while the `IDummyClassFactory` subobject is at 4104. -/
theorem C16_cast_through_void_keeps_object_address :
    (∀ (layout : Layout) (TInstance tInterface : String) (address : Nat),
      (FactoryInjector.GetFactoryAddress TInstance tInterface address).address = address ∧
      (FactoryInjector.GetFactoryAddress TInstance tInterface address
          = layout.subobject TInstance tInterface address
        ↔ layout.baseOffset TInstance tInterface = 0)) ∧
    FactoryInjector.GetFactoryAddress "DummyClass1Factory" "IDummyClassFactory" 4096
      = ut.layout.subobject "DummyClass1Factory" "IDummyClassFactory" 4096 ∧
    FactoryInjector.GetFactoryAddress "SecondBaseFactory" "IDummyClassFactory" 4096
      = ⟨some "IDummyClassFactory", 4096⟩ ∧
    ut.layout.subobject "SecondBaseFactory" "IDummyClassFactory" 4096
      = ⟨some "IDummyClassFactory", 4104⟩ ∧
    FactoryInjector.GetFactoryAddress "SecondBaseFactory" "IDummyClassFactory" 4096
      ≠ ut.layout.subobject "SecondBaseFactory" "IDummyClassFactory" 4096 := by
  refine ⟨?_, by decide, by decide, by decide, by decide⟩
  intro layout TInstance tInterface address
  refine ⟨rfl, ?_⟩
  simp [FactoryInjector.GetFactoryAddress, Layout.subobject, Layout.toBase,
    Pointer.staticCastFromVoid, RealInstance.GetPtrAddress, RealInstance.get, Pointer.toVoid]

end factory_injector
